import Mathlib

/-!
Verification development for the staged submission orchestrator of the
HCPpipelinesXnatPbsJobs repository.

The shallow embedding below follows `lib/ccf/one_subject_job_submitter.py`
(the abstract base class `OneSubjectJobSubmitter`) together with the
structural-preprocessing subclass
`lib/ccf/structural_preprocessing/one_subject_job_submitter.py`.

Conventions of the embedding:
* `os.sep`, `os.path.sep` and `os.linesep` are the POSIX values "/" and "\n".
* Python string/list truthiness (`if self.scan:`, `if prior_job:`,
  `if all_get_data_job_nos:`) is modelled explicitly: a string is truthy
  iff non-empty, a list iff non-empty, `None` is falsy.
* External subprocess calls (`qsub`, the XNAT mark-running-status command,
  the delete-resource call) are modelled by response oracles; a `none`
  response models a non-zero exit status, which `subprocess.run(...,
  check=True)` turns into a raised `CalledProcessError`, modelled by
  `Except.error`.
* The filesystem is modelled as a partial map from file names to file
  records for the script-rendering operations.
-/

/-- Modelled from the spec: the module `ccf/processing_stage.py` is not under
`src/`; the spec (section 3) describes `ProcessingStage` as the ordered
enumeration {PREPARE_SCRIPTS, GET_DATA, PROCESS_DATA, CLEAN_DATA, PUT_DATA,
CHECK_DATA}, totally ordered by declaration position, supporting
parse-from-name and comparison operators. -/
inductive ProcessingStage
  | PREPARE_SCRIPTS
  | GET_DATA
  | PROCESS_DATA
  | CLEAN_DATA
  | PUT_DATA
  | CHECK_DATA
deriving DecidableEq, Repr

/-- Declaration position of a stage, used for the total order. -/
def ProcessingStage.pos : ProcessingStage → Nat
  | .PREPARE_SCRIPTS => 0
  | .GET_DATA => 1
  | .PROCESS_DATA => 2
  | .CLEAN_DATA => 3
  | .PUT_DATA => 4
  | .CHECK_DATA => 5

instance : LE ProcessingStage := ⟨fun a b => a.pos ≤ b.pos⟩

instance : LT ProcessingStage := ⟨fun a b => a.pos < b.pos⟩

instance (a b : ProcessingStage) : Decidable (a ≤ b) :=
  inferInstanceAs (Decidable (a.pos ≤ b.pos))

instance (a b : ProcessingStage) : Decidable (a < b) :=
  inferInstanceAs (Decidable (a.pos < b.pos))

/-- The `.name` attribute of a Python `Enum` member: the member's name. -/
def ProcessingStage.name : ProcessingStage → String
  | .PREPARE_SCRIPTS => "PREPARE_SCRIPTS"
  | .GET_DATA => "GET_DATA"
  | .PROCESS_DATA => "PROCESS_DATA"
  | .CLEAN_DATA => "CLEAN_DATA"
  | .PUT_DATA => "PUT_DATA"
  | .CHECK_DATA => "CHECK_DATA"

/-- Modelled from the spec: parse-from-name, failing on unknown text
(`InvalidStageError`, modelled as `none`). -/
def ProcessingStage.from_string (s : String) : Option ProcessingStage :=
  if s = "PREPARE_SCRIPTS" then some .PREPARE_SCRIPTS
  else if s = "GET_DATA" then some .GET_DATA
  else if s = "PROCESS_DATA" then some .PROCESS_DATA
  else if s = "CLEAN_DATA" then some .CLEAN_DATA
  else if s = "PUT_DATA" then some .PUT_DATA
  else if s = "CHECK_DATA" then some .CHECK_DATA
  else none

/-- Modelled from the spec: `utils/str_utils.py` is not under `src/`.
`remove_ending_new_lines` parses the scheduler's stdout into the opaque
job identifier (spec section 6: the real implementation "parses its output
into a typed JobId"); it strips trailing newline characters. -/
def remove_ending_new_lines (s : String) : String :=
  String.mk ((s.data.reverse.dropWhile (fun c => c = '\n')).reverse)

/-- Modelled from the spec: `utils/str_utils.py` is not under `src/`.
`get_server_name` derives the server name passed on script command lines
from a configured server value; no claim under verification depends on its
behaviour, so it is modelled as the identity transformation. -/
def get_server_name (s : String) : String := s

/-- Identity and configuration fields of one `OneSubjectJobSubmitter`
instance (the setter-supplied fields plus the values read once from the
required environment variables in the source). `pipeline_name` stands for
the abstract `PIPELINE_NAME` property supplied by a concrete subclass. -/
structure Cfg where
  build_home : String
  project : String
  subject : String
  classifier : String
  session : String
  scan : Option String
  username : String
  password : String
  server : String
  put_server : String
  clean_output_resource_first : Bool
  output_resource_suffix : String
  pipeline_name : String
  log_dir : String
  xnat_pbs_jobs_home : String
  xnat_pbs_jobs_control : String
  singularity_container_version : String
  singularity_container_xnat_path : String
  singularity_bind_path : String
  archive_root : String
  requested_xnat_server : String

/-- Python truthiness of `self.scan` (`None` and the empty string are
falsy): the scan value if it is set and non-empty. -/
def truthyScan (c : Cfg) : Option String :=
  match c.scan with
  | none => none
  | some s => if s = "" then none else some s

/-- Model of `output_resource_name` property (base class, lines 235-241):
`scan + '_' + output_resource_suffix` when a scan is set, otherwise just
`output_resource_suffix`. -/
def output_resource_name (c : Cfg) : String :=
  match truthyScan c with
  | some s => s ++ "_" ++ c.output_resource_suffix
  | none => c.output_resource_suffix

/-- Body of the `working_directory_name_prefix` computation (base class,
lines 252-261), given the current whole-second epoch clock value. -/
def working_directory_name_stem_value (c : Cfg) (now : Nat) : String :=
  let wdir := c.build_home
  let wdir := wdir ++ "/" ++ c.project
  let wdir := wdir ++ "/" ++ c.pipeline_name
  let wdir := wdir ++ "." ++ c.subject
  let wdir := wdir ++ "_" ++ c.classifier
  let wdir := match truthyScan c with
    | some s => wdir ++ "_" ++ s
    | none => wdir
  wdir ++ "." ++ toString now

/-- The memoizing `working_directory_name_prefix` property (base class,
lines 243-263): the cached name when present, otherwise the name is built
from the current clock and stored. Returns the value paired with the
updated cache (`self._working_directory_name_prefix`). -/
def working_directory_name_stem (c : Cfg) (cache : Option String) (now : Nat) :
    String × Option String :=
  match cache with
  | some v => (v, some v)
  | none =>
    let w := working_directory_name_stem_value c now
    (w, some w)

/-- Model of `working_directory_name` property (base class, lines 265-267). -/
def working_directory_name (c : Cfg) (cache : Option String) (now : Nat) :
    String × Option String :=
  let r := working_directory_name_stem c cache now
  (r.1 ++ ".XNAT_PROCESS_DATA", r.2)

/-- Model of `check_data_directory_name` property (base class, lines 269-274). -/
def check_data_directory_name (c : Cfg) (cache : Option String) (now : Nat) :
    String × Option String :=
  let r := working_directory_name_stem c cache now
  (r.1 ++ ".XNAT_CHECK_DATA", r.2)

/-- Model of `mark_completion_directory_name` property (base class, lines 276-281). -/
def mark_completion_directory_name (c : Cfg) (cache : Option String) (now : Nat) :
    String × Option String :=
  let r := working_directory_name_stem c cache now
  (r.1 ++ ".XNAT_MARK_COMPLETE_RUNNING_STATUS", r.2)

/-- Model of `working_directory_name` as a pure function of the memoized name stem
`p` (the value every read returns once the stem has been computed). -/
def working_directory_name_p (p : String) : String :=
  p ++ ".XNAT_PROCESS_DATA"

/-- Model of `check_data_directory_name` as a pure function of the memoized stem. -/
def check_data_directory_name_p (p : String) : String :=
  p ++ ".XNAT_CHECK_DATA"

/-- Model of `mark_completion_directory_name` as a pure function of the memoized
stem. -/
def mark_completion_directory_name_p (p : String) : String :=
  p ++ ".XNAT_MARK_COMPLETE_RUNNING_STATUS"

/-- Model of `scripts_start_name` property (base class, lines 283-291), as a pure
function of the memoized name stem `p`. -/
def scripts_start_name (c : Cfg) (p : String) : String :=
  let start_name := working_directory_name_p p
  let start_name := start_name ++ "/" ++ c.subject
  let start_name := start_name ++ "_" ++ c.classifier
  let start_name := match truthyScan c with
    | some s => start_name ++ "_" ++ s
    | none => start_name
  start_name ++ "." ++ c.pipeline_name

/-- Model of `get_data_job_script_name` property (base class, lines 300-304). -/
def get_data_job_script_name (c : Cfg) (p : String) : String :=
  scripts_start_name c p ++ ".XNAT_GET_DATA_job.sh"

/-- Model of `put_data_script_name` property (base class, lines 391-394). -/
def put_data_script_name (c : Cfg) (p : String) : String :=
  scripts_start_name c p ++ ".XNAT_PUT_DATA_job.sh"

/-- Model of `clean_data_script_name` property (base class, lines 432-435). -/
def clean_data_script_name (c : Cfg) (p : String) : String :=
  scripts_start_name c p ++ ".CLEAN_DATA_job.sh"

/-- Model of `process_data_job_script_name` property (base class, lines 498-504). -/
def process_data_job_script_name (c : Cfg) (p : String) : String :=
  scripts_start_name c p ++ ".PROCESS_DATA_job.sh"

/-- Model of `check_data_job_script_name` property (base class, lines 511-524). -/
def check_data_job_script_name (c : Cfg) (p : String) : String :=
  let name := check_data_directory_name_p p
  let name := name ++ "/" ++ c.subject
  let name := name ++ "_" ++ c.classifier
  let name := match truthyScan c with
    | some s => name ++ "_" ++ s
    | none => name
  let name := name ++ "." ++ c.pipeline_name
  name ++ "." ++ "XNAT_CHECK_DATA_job.sh"

/-- Model of `mark_no_longer_running_script_name` property (base class, lines
573-583). -/
def mark_no_longer_running_script_name (c : Cfg) (p : String) : String :=
  let name := mark_completion_directory_name_p p
  let name := name ++ "/" ++ c.subject
  let name := name ++ "_" ++ c.classifier
  let name := match truthyScan c with
    | some s => name ++ "_" ++ s
    | none => name
  let name := name ++ "." ++ c.pipeline_name
  name ++ "." ++ "MARK_COMPLETE_RUNNING_STATUS_job.sh"

/-- Model of `get_data_program_path` property (base class, lines 311-317). -/
def get_data_program_path (c : Cfg) : String :=
  c.xnat_pbs_jobs_home ++ "/" ++ c.pipeline_name ++ "/" ++ c.pipeline_name ++ ".XNAT_GET"

/-- Model of `check_data_program_path` property (base class, lines 526-534). -/
def check_data_program_path (c : Cfg) : String :=
  c.xnat_pbs_jobs_home ++ "/" ++ c.pipeline_name ++ "/" ++ c.pipeline_name ++ ".XNAT_CHECK"

/-- Model of `mark_running_status_program_path` property (base class, lines 585-593). -/
def mark_running_status_program_path (c : Cfg) : String :=
  c.xnat_pbs_jobs_home ++ "/" ++ c.pipeline_name ++ "/" ++ c.pipeline_name ++ ".XNAT_MARK_RUNNING_STATUS"

/-- Model of `_get_xnat_pbs_setup_script_path` (base class, lines 319-321). -/
def xnat_pbs_setup_script_path (c : Cfg) : String :=
  c.xnat_pbs_jobs_control ++ "/xnat_pbs_setup"

/-- A file on disk: its content and whether the owner/group execute bits
(`stat.S_IRWXU | stat.S_IRWXG`) have been set. A freshly opened file is not
executable. -/
structure FileRec where
  content : String
  executable : Bool
deriving DecidableEq, Repr

/-- The filesystem: a partial map from file names to files. -/
abbrev FileSys : Type := String → Option FileRec

/-- Model of `os.remove(name)` under `contextlib.suppress(FileNotFoundError)`:
removes the file if present, does nothing otherwise. -/
def fsRemove (fs : FileSys) (name : String) : FileSys :=
  fun k => if k = name then none else fs k

/-- Model of `open(name, 'w')`: creates the file, truncating any previous content. -/
def fsOpenW (fs : FileSys) (name : String) : FileSys :=
  fun k => if k = name then some { content := "", executable := false } else fs k

/-- Model of `script.write(text)` on the file opened at `name`: appends `text` to the
file's content. -/
def fsWrite (fs : FileSys) (name : String) (text : String) : FileSys :=
  fun k =>
    if k = name then (fs name).map (fun f => { f with content := f.content ++ text })
    else fs k

/-- A sequence of `script.write` calls on the file opened at `name`. -/
def fsWriteList (fs : FileSys) (name : String) (ws : List String) : FileSys :=
  ws.foldl (fun f w => fsWrite f name w) fs

/-- Model of `os.chmod(name, stat.S_IRWXU | stat.S_IRWXG)`: marks the file
executable. -/
def fsChmodExec (fs : FileSys) (name : String) : FileSys :=
  fun k =>
    if k = name then (fs name).map (fun f => { f with executable := true })
    else fs k

/-- The common shape of every `create_*_script` method in the source:
remove the script if it already exists, open it for writing, perform the
listed `write` calls, close it, and mark it executable. -/
def script_render (fs : FileSys) (name : String) (ws : List String) : FileSys :=
  fsChmodExec (fsWriteList (fsOpenW (fsRemove fs name) name) name ws) name

/-- Model of `_write_bash_header` (base class, lines 306-309), via
`file_utils.wl` which writes its argument followed by a newline
(`utils/file_utils.py` is not under `src/`; modelled from its use). -/
def bash_header_writes : List String :=
  ["#PBS -S /bin/bash" ++ "\n", "" ++ "\n"]

/-- The texts written by `create_get_data_job_script` (base class, lines
363-389), in order; `p` is the memoized working-directory name stem. -/
def create_get_data_job_script_writes (c : Cfg) (p : String) : List String :=
  bash_header_writes ++
  ["#PBS -l nodes=1:ppn=1,walltime=4:00:00,mem=4gb" ++ "\n",
   "#PBS -o " ++ working_directory_name_p p ++ "\n",
   "#PBS -e " ++ working_directory_name_p p ++ "\n",
   "\n",
   "source " ++ xnat_pbs_setup_script_path c ++ " " ++ c.requested_xnat_server ++ "\n",
   "module load " ++ c.singularity_container_version ++ "\n",
   "\n",
   "singularity exec -B " ++ c.archive_root ++ "," ++ c.singularity_bind_path ++ " " ++
     c.singularity_container_xnat_path ++ " " ++ get_data_program_path c ++ " \\" ++ "\n",
   "  --project=" ++ c.project ++ " \\" ++ "\n",
   "  --subject=" ++ c.subject ++ " \\" ++ "\n",
   "  --classifier=" ++ c.classifier ++ " \\" ++ "\n"] ++
  (match truthyScan c with
   | some s => ["  --scan=" ++ s ++ " \\" ++ "\n"]
   | none => []) ++
  ["  --working-dir=" ++ working_directory_name_p p ++ "\n"]

/-- Model of `create_get_data_job_script` (base class, lines 363-389) as a
filesystem transformation. -/
def create_get_data_job_script (c : Cfg) (p : String) (fs : FileSys) : FileSys :=
  script_render fs (get_data_job_script_name c p) (create_get_data_job_script_writes c p)

/-- The texts written by `create_put_data_script` (base class, lines
396-430), in order. Note the conditional branch on the scan field: with a
scan, a `--scan` line plus a `--resource-suffix` line carrying
`output_resource_suffix`; without one, only a `--resource-suffix` line
carrying `output_resource_name`. -/
def create_put_data_script_writes (c : Cfg) (p : String) : List String :=
  ["#PBS -l nodes=1:ppn=1,walltime=4:00:00,mem=12gb" ++ "\n",
   "#PBS -o " ++ c.log_dir ++ "\n",
   "#PBS -e " ++ c.log_dir ++ "\n",
   "\n",
   "source " ++ xnat_pbs_setup_script_path c ++ " " ++ c.requested_xnat_server ++ "\n",
   "module load " ++ c.singularity_container_version ++ "\n",
   "\n",
   "mv " ++ working_directory_name_p p ++ "/*" ++ c.pipeline_name ++ "* " ++
     working_directory_name_p p ++ "/" ++ c.subject ++ "_" ++ c.classifier ++ "/" ++
     "ProcessingInfo" ++ "\n",
   "\n",
   "singularity exec -B " ++ c.archive_root ++ "," ++ c.singularity_bind_path ++ " " ++
     c.singularity_container_xnat_path ++ " " ++ c.xnat_pbs_jobs_home ++ "/" ++
     "WorkingDirPut" ++ "/" ++ "XNAT_working_dir_put.sh \\" ++ "\n",
   "  --leave-subject-id-level \\" ++ "\n",
   "  --user=\"" ++ c.username ++ "\" \\" ++ "\n",
   "  --password=\"" ++ c.password ++ "\" \\" ++ "\n",
   "  --server=\"" ++ get_server_name c.put_server ++ "\" \\" ++ "\n",
   "  --project=\"" ++ c.project ++ "\" \\" ++ "\n",
   "  --subject=\"" ++ c.subject ++ "\" \\" ++ "\n",
   "  --session=\"" ++ c.session ++ "\" \\" ++ "\n",
   "  --working-dir=\"" ++ working_directory_name_p p ++ "\" \\" ++ "\n"] ++
  (match truthyScan c with
   | some s =>
     ["  --scan=\"" ++ s ++ "\" \\" ++ "\n",
      "  --resource-suffix=\"" ++ c.output_resource_suffix ++ "\" \\" ++ "\n"]
   | none =>
     ["  --resource-suffix=\"" ++ output_resource_name c ++ "\" \\" ++ "\n"]) ++
  ["  --reason=\"" ++ c.pipeline_name ++ "\"" ++ "\n"]

/-- Model of `create_put_data_script` (base class, lines 396-430) as a filesystem
transformation. -/
def create_put_data_script (c : Cfg) (p : String) (fs : FileSys) : FileSys :=
  script_render fs (put_data_script_name c p) (create_put_data_script_writes c p)

/-- The texts written by `create_clean_data_script` (base class, lines
455-496), in order. `sc` abbreviates the per-subject directory inside the
working directory. -/
def create_clean_data_script_writes (c : Cfg) (p : String) : List String :=
  let wd := working_directory_name_p p
  let sc := wd ++ "/" ++ c.subject ++ "_" ++ c.classifier
  bash_header_writes ++
  ["#PBS -l nodes=1:ppn=1,walltime=4:00:00,mem=4gb" ++ "\n",
   "#PBS -o " ++ wd ++ "\n",
   "#PBS -e " ++ wd ++ "\n",
   "\n",
   "mv " ++ sc ++ "/" ++ c.subject ++ "_" ++ c.classifier ++ "/" ++ "MNINonLinear ",
   sc ++ "\n",
   "mv " ++ sc ++ "/" ++ c.subject ++ "_" ++ c.classifier ++ "/" ++ "T*w ",
   sc ++ "\n",
   "mv " ++ sc ++ "/" ++ "subjects" ++ "/" ++ "specs ",
   sc ++ "/" ++ "ProcessingInfo" ++ "\n",
   "mv " ++ sc ++ "/" ++ "processing ",
   sc ++ "/" ++ "ProcessingInfo" ++ "\n",
   "mv " ++ sc ++ "/" ++ "info" ++ "/" ++ "hcpls ",
   sc ++ "/" ++ "ProcessingInfo" ++ "\n",
   "mv " ++ sc ++ "/" ++ "subjects" ++ "/" ++ c.subject ++ "_" ++ c.classifier ++ "/" ++
     "subject_hcp.txt ",
   sc ++ "/" ++ "ProcessingInfo" ++ "/" ++ "processing" ++ "\n",
   "mv " ++ sc ++ "/" ++ "subjects" ++ "/" ++ c.subject ++ "_" ++ c.classifier ++ "/" ++
     "hcpls" ++ "/" ++ "hcpls2nii.log ",
   sc ++ "/" ++ "ProcessingInfo" ++ "/" ++ "processing" ++ "\n",
   "find " ++ sc,
   " -not -path \"" ++ sc ++ "/" ++ "T*w/*\"",
   " -not -path \"" ++ sc ++ "/" ++ "ProcessingInfo/*\"",
   " -not -path \"" ++ sc ++ "/" ++ "MNINonLinear/*\"",
   " -delete",
   "\n",
   "echo \"Removing any XNAT catalog files still around.\"" ++ "\n",
   "find " ++ wd ++ " -name \"*_catalog.xml\" -delete",
   "\n",
   "echo \"Remaining files:\"" ++ "\n",
   "find " ++ sc ++ "\n"]

/-- Model of `create_clean_data_script` (base class, lines 455-496) as a filesystem
transformation. -/
def create_clean_data_script (c : Cfg) (p : String) (fs : FileSys) : FileSys :=
  script_render fs (clean_data_script_name c p) (create_clean_data_script_writes c p)

/-- Dependency mode of a `qsub -W depend=...` flag. -/
inductive DepMode
  | afterok
  | afterany
deriving DecidableEq, Repr

/-- One `qsub` invocation: the submitted script and the optional
`-W depend=mode:jobid` flag. -/
structure QsubCmd where
  script : String
  dep : Option (DepMode × String)
deriving DecidableEq, Repr

/-- Externally visible actions of one orchestration run, in order. -/
inductive Event
  | createScripts
  | deleteResource
  | markQueued
  | qsub (cmd : QsubCmd)
deriving DecidableEq, Repr

/-- Whether an event is a scheduler submission. -/
def Event.isQsub : Event → Bool
  | .qsub _ => true
  | _ => false

/-- State threaded through one orchestration run: the response oracles for
the external calls and the trace of actions performed so far.
`qsub_responses n` is the stdout of the `n`-th `qsub` call (`none` models a
non-zero exit status); `mark_response` answers the single
`XNAT_MARK_RUNNING_STATUS --queued` call and `delete_response` the single
`delete_resource` call. -/
structure SchedSt where
  qsub_responses : Nat → Option String
  mark_response : Option String
  delete_response : Option String
  k : Nat
  events : List Event

/-- Perform one `qsub` call via `subprocess.run(..., check=True)`: the
command is recorded, the next oracle response is consumed, and a `none`
response (non-zero exit) raises, modelled by `Except.error`. -/
def runQsub (cmd : QsubCmd) (st : SchedSt) : Except Unit String × SchedSt :=
  let st' : SchedSt :=
    { st with k := st.k + 1, events := st.events ++ [Event.qsub cmd] }
  match st.qsub_responses st.k with
  | some out => (Except.ok out, st')
  | none => (Except.error (), st')

/-- The `if prior_job:` branch common to every submit method: the
`-W depend=mode:prior_job` flag is attached exactly when `prior_job` is a
truthy (non-empty) string. -/
def depOption (mode : DepMode) : Option String → Option (DepMode × String)
  | none => none
  | some pj => if pj = "" then none else some (mode, pj)

/-- Python truthiness of an optional job-id string. -/
def optStrTruthy : Option String → Bool
  | none => false
  | some s => !(s = "")

/-- Python truthiness of an optional job-id list. -/
def optListTruthy : Option (List String) → Bool
  | none => false
  | some [] => false
  | some (_ :: _) => true

/-- Model of `submit_get_data_jobs` (base class, lines 628-644). -/
def submit_get_data_jobs (c : Cfg) (p : String) (stage : ProcessingStage)
    (prior_job : Option String) (st : SchedSt) :
    Except Unit (Option String × Option (List String)) × SchedSt :=
  if ProcessingStage.GET_DATA ≤ stage then
    match runQsub { script := get_data_job_script_name c p,
                    dep := depOption DepMode.afterok prior_job } st with
    | (Except.ok out, st') =>
      let job := remove_ending_new_lines out
      (Except.ok (some job, some [job]), st')
    | (Except.error e, st') => (Except.error e, st')
  else
    (Except.ok (none, none), st)

/-- Model of `submit_process_data_jobs` (base class, lines 646-662). The structural
subclass overrides this method but, with
`_SUPPRESS_FREESURFER_ASSESSOR_JOB = True`, returns the base-class result
unchanged. -/
def submit_process_data_jobs (c : Cfg) (p : String) (stage : ProcessingStage)
    (prior_job : Option String) (st : SchedSt) :
    Except Unit (Option String × Option (List String)) × SchedSt :=
  if ProcessingStage.PROCESS_DATA ≤ stage then
    match runQsub { script := process_data_job_script_name c p,
                    dep := depOption DepMode.afterok prior_job } st with
    | (Except.ok out, st') =>
      let job := remove_ending_new_lines out
      (Except.ok (some job, some [job]), st')
    | (Except.error e, st') => (Except.error e, st')
  else
    (Except.ok (none, none), st)

/-- Model of `submit_clean_data_jobs` (base class, lines 664-680). -/
def submit_clean_data_jobs (c : Cfg) (p : String) (stage : ProcessingStage)
    (prior_job : Option String) (st : SchedSt) :
    Except Unit (Option String × Option (List String)) × SchedSt :=
  if ProcessingStage.CLEAN_DATA ≤ stage then
    match runQsub { script := clean_data_script_name c p,
                    dep := depOption DepMode.afterok prior_job } st with
    | (Except.ok out, st') =>
      let job := remove_ending_new_lines out
      (Except.ok (some job, some [job]), st')
    | (Except.error e, st') => (Except.error e, st')
  else
    (Except.ok (none, none), st)

/-- Model of `submit_put_data_jobs` (base class, lines 682-698). -/
def submit_put_data_jobs (c : Cfg) (p : String) (stage : ProcessingStage)
    (prior_job : Option String) (st : SchedSt) :
    Except Unit (Option String × Option (List String)) × SchedSt :=
  if ProcessingStage.PUT_DATA ≤ stage then
    match runQsub { script := put_data_script_name c p,
                    dep := depOption DepMode.afterok prior_job } st with
    | (Except.ok out, st') =>
      let job := remove_ending_new_lines out
      (Except.ok (some job, some [job]), st')
    | (Except.error e, st') => (Except.error e, st')
  else
    (Except.ok (none, none), st)

/-- Model of `submit_check_jobs` (base class, lines 700-716). -/
def submit_check_jobs (c : Cfg) (p : String) (stage : ProcessingStage)
    (prior_job : Option String) (st : SchedSt) :
    Except Unit (Option String × Option (List String)) × SchedSt :=
  if ProcessingStage.CHECK_DATA ≤ stage then
    match runQsub { script := check_data_job_script_name c p,
                    dep := depOption DepMode.afterok prior_job } st with
    | (Except.ok out, st') =>
      let job := remove_ending_new_lines out
      (Except.ok (some job, some [job]), st')
    | (Except.error e, st') => (Except.error e, st')
  else
    (Except.ok (none, none), st)

/-- Model of `submit_no_longer_running_jobs` (base class, lines 718-729): submitted
unconditionally, with an `afterany` dependency when a prior job exists. -/
def submit_no_longer_running_jobs (c : Cfg) (p : String)
    (prior_job : Option String) (st : SchedSt) :
    Except Unit (Option String × Option (List String)) × SchedSt :=
  match runQsub { script := mark_no_longer_running_script_name c p,
                  dep := depOption DepMode.afterany prior_job } st with
  | (Except.ok out, st') =>
    let job := remove_ending_new_lines out
    (Except.ok (some job, some [job]), st')
  | (Except.error e, st') => (Except.error e, st')

/-- Model of `create_scripts` (base class, lines 735-747): renders every stage
script when `stage >= PREPARE_SCRIPTS` (always true, since
`PREPARE_SCRIPTS` is the least stage). Only the action is recorded here;
the per-script filesystem semantics is `create_*_script` above. -/
def create_scripts (stage : ProcessingStage) (st : SchedSt) : SchedSt :=
  if ProcessingStage.PREPARE_SCRIPTS ≤ stage then
    { st with events := st.events ++ [Event.createScripts] }
  else
    st

/-- Model of `mark_running_status` (structural subclass, lines 486-507): when
`stage > PREPARE_SCRIPTS`, run the external
`<PIPELINE>.XNAT_MARK_RUNNING_STATUS ... --queued` command via
`subprocess.run(..., check=True)`; otherwise do nothing. -/
def mark_running_status (stage : ProcessingStage) (st : SchedSt) :
    Except Unit Unit × SchedSt :=
  if ProcessingStage.PREPARE_SCRIPTS < stage then
    let st' : SchedSt := { st with events := st.events ++ [Event.markQueued] }
    match st.mark_response with
    | some _ => (Except.ok (), st')
    | none => (Except.error (), st')
  else
    (Except.ok (), st)

/-- The manifest returned by a run: `(stage label, job-id list)` pairs.
The second component is `Option` because the source appends the raw
`all_*_job_nos` value, which can be Python `None`. -/
abbrev Manifest : Type := List (String × Option (List String))

/-- Model of `do_job_submissions` (base class, lines 749-801). Mirrors the source
statement by statement, including the guard at line 775, which tests
`all_process_data_job_nos` (not `all_clean_data_job_nos`) before appending
the CLEAN_DATA manifest entry. -/
def do_job_submissions (c : Cfg) (p : String) (stage : ProcessingStage)
    (st : SchedSt) : Except Unit Manifest × SchedSt :=
  let submitted_jobs_list : Manifest := []
  let prior : Option String := none
  let st := create_scripts stage st
  match mark_running_status stage st with
  | (Except.error e, st) => (Except.error e, st)
  | (Except.ok _, st) =>
    match submit_get_data_jobs c p stage prior st with
    | (Except.error e, st) => (Except.error e, st)
    | (Except.ok (last_get, all_get), st) =>
      let submitted_jobs_list :=
        if optListTruthy all_get then
          submitted_jobs_list ++ [(ProcessingStage.GET_DATA.name, all_get)]
        else submitted_jobs_list
      let prior := if optStrTruthy last_get then last_get else prior
      match submit_process_data_jobs c p stage prior st with
      | (Except.error e, st) => (Except.error e, st)
      | (Except.ok (last_proc, all_proc), st) =>
        let submitted_jobs_list :=
          if optListTruthy all_proc then
            submitted_jobs_list ++ [(ProcessingStage.PROCESS_DATA.name, all_proc)]
          else submitted_jobs_list
        let prior := if optStrTruthy last_proc then last_proc else prior
        match submit_clean_data_jobs c p stage prior st with
        | (Except.error e, st) => (Except.error e, st)
        | (Except.ok (last_clean, all_clean), st) =>
          let submitted_jobs_list :=
            if optListTruthy all_proc then
              submitted_jobs_list ++ [(ProcessingStage.CLEAN_DATA.name, all_clean)]
            else submitted_jobs_list
          let prior := if optStrTruthy last_clean then last_clean else prior
          match submit_put_data_jobs c p stage prior st with
          | (Except.error e, st) => (Except.error e, st)
          | (Except.ok (last_put, all_put), st) =>
            let submitted_jobs_list :=
              if optListTruthy all_put then
                submitted_jobs_list ++ [(ProcessingStage.PUT_DATA.name, all_put)]
              else submitted_jobs_list
            let prior := if optStrTruthy last_put then last_put else prior
            match submit_check_jobs c p stage prior st with
            | (Except.error e, st) => (Except.error e, st)
            | (Except.ok (last_check, all_check), st) =>
              let submitted_jobs_list :=
                if optListTruthy all_check then
                  submitted_jobs_list ++ [(ProcessingStage.CHECK_DATA.name, all_check)]
                else submitted_jobs_list
              let prior := if optStrTruthy last_check then last_check else prior
              match submit_no_longer_running_jobs c p prior st with
              | (Except.error e, st) => (Except.error e, st)
              | (Except.ok (last_mark, all_mark), st) =>
                let submitted_jobs_list :=
                  if optListTruthy all_mark then
                    submitted_jobs_list ++ [("Complete Running Status", all_mark)]
                  else submitted_jobs_list
                let _prior := if optStrTruthy last_mark then last_mark else prior
                (Except.ok submitted_jobs_list, st)

/-- Model of `submit_jobs` (base class, lines 803-838): forces the memoized
working-directory names (the three `os.makedirs` calls; directory creation
itself is outside this model), optionally deletes the prior output
resource (fatal on failure), and runs `do_job_submissions`. The
`time.sleep(5)` collision mitigation has no functional effect here. -/
def submit_jobs (c : Cfg) (stage : ProcessingStage) (cache : Option String)
    (now : Nat) (st : SchedSt) : Except Unit Manifest × SchedSt :=
  let r := working_directory_name_stem c cache now
  let p := r.1
  if c.clean_output_resource_first then
    match st.delete_response with
    | none =>
      (Except.error (), { st with events := st.events ++ [Event.deleteResource] })
    | some _ =>
      do_job_submissions c p stage
        { st with events := st.events ++ [Event.deleteResource] }
  else
    do_job_submissions c p stage st

/-- The `qsub` commands of a trace, in order. -/
def qsubCmds (evs : List Event) : List QsubCmd :=
  evs.filterMap (fun e =>
    match e with
    | Event.qsub cmd => some cmd
    | _ => none)

/-- The scripts submitted to the scheduler by a trace, in order. -/
def qsubScripts (evs : List Event) : List String :=
  (qsubCmds evs).map QsubCmd.script

/-- Specification-side description of the gated stage scripts a run with
requested stage `stage` submits, in submission order. -/
def plannedStageScripts (c : Cfg) (p : String) (stage : ProcessingStage) :
    List String :=
  (if ProcessingStage.GET_DATA ≤ stage then [get_data_job_script_name c p] else []) ++
  (if ProcessingStage.PROCESS_DATA ≤ stage then [process_data_job_script_name c p] else []) ++
  (if ProcessingStage.CLEAN_DATA ≤ stage then [clean_data_script_name c p] else []) ++
  (if ProcessingStage.PUT_DATA ≤ stage then [put_data_script_name c p] else []) ++
  (if ProcessingStage.CHECK_DATA ≤ stage then [check_data_job_script_name c p] else [])

/-- Specification-side description of every script a run submits: the gated
stage scripts followed by the unconditional mark-no-longer-running script. -/
def plannedScripts (c : Cfg) (p : String) (stage : ProcessingStage) :
    List String :=
  plannedStageScripts c p stage ++ [mark_no_longer_running_script_name c p]

/-- The job id the spec assigns to the `n`-th successful `qsub` call:
its stdout with trailing newlines removed. -/
def jobIdAt (q : Nat → Option String) (n : Nat) : String :=
  remove_ending_new_lines ((q n).getD "")

/-- Specification-side dependency wiring: the scripts of `scrs` submitted
in order starting from prior job `prior`, where the `n`-th submission
overall returns job id `ids n`; each submission after the first depends in
`afterok` mode on the job id returned by the one before it. -/
def chainedCmds : List String → Option String → (Nat → String) → Nat → List QsubCmd
  | [], _, _, _ => []
  | scr :: rest, prior, ids, n =>
    { script := scr, dep := prior.map (fun j => (DepMode.afterok, j)) } ::
      chainedCmds rest (some (ids n)) ids (n + 1)

/-- The job id of the last of the first `m` submissions (`none` when
`m = 0`). -/
def lastJobId (ids : Nat → String) : Nat → Option String
  | 0 => none
  | Nat.succ n => some (ids n)

/-- An initial scheduler state from the three response oracles: no calls
made, empty trace. -/
def initSt (q : Nat → Option String) (m d : Option String) : SchedSt :=
  { qsub_responses := q, mark_response := m, delete_response := d, k := 0, events := [] }

/-- Concatenation of the texts of a sequence of `write` calls. -/
def concatWrites : List String → String
  | [] => ""
  | w :: ws => w ++ concatWrites ws

/-- Whether `s` starts with the text `pre` (character-wise). -/
def strStartsWith (pre s : String) : Bool :=
  pre.data.isPrefixOf s.data

/-- A concrete configuration without a scan field, used to evaluate the
embedded code on closed inputs. -/
def cfg0 : Cfg :=
  { build_home := "b", project := "p", subject := "s", classifier := "c",
    session := "s_c", scan := none, username := "u", password := "w",
    server := "sv", put_server := "ps", clean_output_resource_first := false,
    output_resource_suffix := "osx", pipeline_name := "P", log_dir := "ld",
    xnat_pbs_jobs_home := "jh", xnat_pbs_jobs_control := "jc",
    singularity_container_version := "1", singularity_container_xnat_path := "cx",
    singularity_bind_path := "bp", archive_root := "ar",
    requested_xnat_server := "rx" }

/-- A concrete configuration with a scan field. -/
def cfg1 : Cfg :=
  { cfg0 with scan := some "S", session := "s_c" }

/-- An always-successful scheduler oracle: the `n`-th `qsub` prints job id
`Jn` followed by a newline. -/
def qAll : Nat → Option String :=
  fun n => some ("J" ++ toString n ++ "\n")

/-- A scheduler oracle whose calls succeed up to (excluding) index `k` and
fail from index `k` on. -/
def qFailFrom (k : Nat) : Nat → Option String :=
  fun n => if n < k then some ("J" ++ toString n ++ "\n") else none

/-- PREPARE_SCRIPTS is the least stage. -/
theorem prepare_scripts_le (s : ProcessingStage) :
    ProcessingStage.PREPARE_SCRIPTS ≤ s := by
  cases s <;> decide

theorem create_scripts_eq (stage : ProcessingStage) (st : SchedSt) :
    create_scripts stage st =
      { st with events := st.events ++ [Event.createScripts] } := by
  simp [create_scripts, prepare_scripts_le]

theorem mark_running_status_ok {stage : ProcessingStage} {st : SchedSt} {mo : String}
    (h : ProcessingStage.PREPARE_SCRIPTS < stage) (hm : st.mark_response = some mo) :
    mark_running_status stage st =
      (Except.ok (), { st with events := st.events ++ [Event.markQueued] }) := by
  simp [mark_running_status, h, hm]

theorem mark_running_status_err {stage : ProcessingStage} {st : SchedSt}
    (h : ProcessingStage.PREPARE_SCRIPTS < stage) (hm : st.mark_response = none) :
    mark_running_status stage st =
      (Except.error (), { st with events := st.events ++ [Event.markQueued] }) := by
  simp [mark_running_status, h, hm]

theorem mark_running_status_skip {stage : ProcessingStage} {st : SchedSt}
    (h : ¬ ProcessingStage.PREPARE_SCRIPTS < stage) :
    mark_running_status stage st = (Except.ok (), st) := by
  simp [mark_running_status, h]

theorem submit_get_data_jobs_ok {c : Cfg} {p : String} {stage : ProcessingStage}
    {prior : Option String} {st : SchedSt} {out : String}
    (h : ProcessingStage.GET_DATA ≤ stage) (hq : st.qsub_responses st.k = some out) :
    submit_get_data_jobs c p stage prior st =
      (Except.ok (some (remove_ending_new_lines out), some [remove_ending_new_lines out]),
       { st with k := st.k + 1,
                 events := st.events ++
                   [Event.qsub { script := get_data_job_script_name c p,
                                 dep := depOption DepMode.afterok prior }] }) := by
  simp [submit_get_data_jobs, runQsub, h, hq]

theorem submit_get_data_jobs_err {c : Cfg} {p : String} {stage : ProcessingStage}
    {prior : Option String} {st : SchedSt}
    (h : ProcessingStage.GET_DATA ≤ stage) (hq : st.qsub_responses st.k = none) :
    submit_get_data_jobs c p stage prior st =
      (Except.error (),
       { st with k := st.k + 1,
                 events := st.events ++
                   [Event.qsub { script := get_data_job_script_name c p,
                                 dep := depOption DepMode.afterok prior }] }) := by
  simp [submit_get_data_jobs, runQsub, h, hq]

theorem submit_get_data_jobs_skip {c : Cfg} {p : String} {stage : ProcessingStage}
    {prior : Option String} {st : SchedSt}
    (h : ¬ ProcessingStage.GET_DATA ≤ stage) :
    submit_get_data_jobs c p stage prior st = (Except.ok (none, none), st) := by
  simp [submit_get_data_jobs, h]

theorem submit_process_data_jobs_ok {c : Cfg} {p : String} {stage : ProcessingStage}
    {prior : Option String} {st : SchedSt} {out : String}
    (h : ProcessingStage.PROCESS_DATA ≤ stage) (hq : st.qsub_responses st.k = some out) :
    submit_process_data_jobs c p stage prior st =
      (Except.ok (some (remove_ending_new_lines out), some [remove_ending_new_lines out]),
       { st with k := st.k + 1,
                 events := st.events ++
                   [Event.qsub { script := process_data_job_script_name c p,
                                 dep := depOption DepMode.afterok prior }] }) := by
  simp [submit_process_data_jobs, runQsub, h, hq]

theorem submit_process_data_jobs_err {c : Cfg} {p : String} {stage : ProcessingStage}
    {prior : Option String} {st : SchedSt}
    (h : ProcessingStage.PROCESS_DATA ≤ stage) (hq : st.qsub_responses st.k = none) :
    submit_process_data_jobs c p stage prior st =
      (Except.error (),
       { st with k := st.k + 1,
                 events := st.events ++
                   [Event.qsub { script := process_data_job_script_name c p,
                                 dep := depOption DepMode.afterok prior }] }) := by
  simp [submit_process_data_jobs, runQsub, h, hq]

theorem submit_process_data_jobs_skip {c : Cfg} {p : String} {stage : ProcessingStage}
    {prior : Option String} {st : SchedSt}
    (h : ¬ ProcessingStage.PROCESS_DATA ≤ stage) :
    submit_process_data_jobs c p stage prior st = (Except.ok (none, none), st) := by
  simp [submit_process_data_jobs, h]

theorem submit_clean_data_jobs_ok {c : Cfg} {p : String} {stage : ProcessingStage}
    {prior : Option String} {st : SchedSt} {out : String}
    (h : ProcessingStage.CLEAN_DATA ≤ stage) (hq : st.qsub_responses st.k = some out) :
    submit_clean_data_jobs c p stage prior st =
      (Except.ok (some (remove_ending_new_lines out), some [remove_ending_new_lines out]),
       { st with k := st.k + 1,
                 events := st.events ++
                   [Event.qsub { script := clean_data_script_name c p,
                                 dep := depOption DepMode.afterok prior }] }) := by
  simp [submit_clean_data_jobs, runQsub, h, hq]

theorem submit_clean_data_jobs_err {c : Cfg} {p : String} {stage : ProcessingStage}
    {prior : Option String} {st : SchedSt}
    (h : ProcessingStage.CLEAN_DATA ≤ stage) (hq : st.qsub_responses st.k = none) :
    submit_clean_data_jobs c p stage prior st =
      (Except.error (),
       { st with k := st.k + 1,
                 events := st.events ++
                   [Event.qsub { script := clean_data_script_name c p,
                                 dep := depOption DepMode.afterok prior }] }) := by
  simp [submit_clean_data_jobs, runQsub, h, hq]

theorem submit_clean_data_jobs_skip {c : Cfg} {p : String} {stage : ProcessingStage}
    {prior : Option String} {st : SchedSt}
    (h : ¬ ProcessingStage.CLEAN_DATA ≤ stage) :
    submit_clean_data_jobs c p stage prior st = (Except.ok (none, none), st) := by
  simp [submit_clean_data_jobs, h]

theorem submit_put_data_jobs_ok {c : Cfg} {p : String} {stage : ProcessingStage}
    {prior : Option String} {st : SchedSt} {out : String}
    (h : ProcessingStage.PUT_DATA ≤ stage) (hq : st.qsub_responses st.k = some out) :
    submit_put_data_jobs c p stage prior st =
      (Except.ok (some (remove_ending_new_lines out), some [remove_ending_new_lines out]),
       { st with k := st.k + 1,
                 events := st.events ++
                   [Event.qsub { script := put_data_script_name c p,
                                 dep := depOption DepMode.afterok prior }] }) := by
  simp [submit_put_data_jobs, runQsub, h, hq]

theorem submit_put_data_jobs_err {c : Cfg} {p : String} {stage : ProcessingStage}
    {prior : Option String} {st : SchedSt}
    (h : ProcessingStage.PUT_DATA ≤ stage) (hq : st.qsub_responses st.k = none) :
    submit_put_data_jobs c p stage prior st =
      (Except.error (),
       { st with k := st.k + 1,
                 events := st.events ++
                   [Event.qsub { script := put_data_script_name c p,
                                 dep := depOption DepMode.afterok prior }] }) := by
  simp [submit_put_data_jobs, runQsub, h, hq]

theorem submit_put_data_jobs_skip {c : Cfg} {p : String} {stage : ProcessingStage}
    {prior : Option String} {st : SchedSt}
    (h : ¬ ProcessingStage.PUT_DATA ≤ stage) :
    submit_put_data_jobs c p stage prior st = (Except.ok (none, none), st) := by
  simp [submit_put_data_jobs, h]

theorem submit_check_jobs_ok {c : Cfg} {p : String} {stage : ProcessingStage}
    {prior : Option String} {st : SchedSt} {out : String}
    (h : ProcessingStage.CHECK_DATA ≤ stage) (hq : st.qsub_responses st.k = some out) :
    submit_check_jobs c p stage prior st =
      (Except.ok (some (remove_ending_new_lines out), some [remove_ending_new_lines out]),
       { st with k := st.k + 1,
                 events := st.events ++
                   [Event.qsub { script := check_data_job_script_name c p,
                                 dep := depOption DepMode.afterok prior }] }) := by
  simp [submit_check_jobs, runQsub, h, hq]

theorem submit_check_jobs_err {c : Cfg} {p : String} {stage : ProcessingStage}
    {prior : Option String} {st : SchedSt}
    (h : ProcessingStage.CHECK_DATA ≤ stage) (hq : st.qsub_responses st.k = none) :
    submit_check_jobs c p stage prior st =
      (Except.error (),
       { st with k := st.k + 1,
                 events := st.events ++
                   [Event.qsub { script := check_data_job_script_name c p,
                                 dep := depOption DepMode.afterok prior }] }) := by
  simp [submit_check_jobs, runQsub, h, hq]

theorem submit_check_jobs_skip {c : Cfg} {p : String} {stage : ProcessingStage}
    {prior : Option String} {st : SchedSt}
    (h : ¬ ProcessingStage.CHECK_DATA ≤ stage) :
    submit_check_jobs c p stage prior st = (Except.ok (none, none), st) := by
  simp [submit_check_jobs, h]

theorem submit_no_longer_running_jobs_ok {c : Cfg} {p : String}
    {prior : Option String} {st : SchedSt} {out : String}
    (hq : st.qsub_responses st.k = some out) :
    submit_no_longer_running_jobs c p prior st =
      (Except.ok (some (remove_ending_new_lines out), some [remove_ending_new_lines out]),
       { st with k := st.k + 1,
                 events := st.events ++
                   [Event.qsub { script := mark_no_longer_running_script_name c p,
                                 dep := depOption DepMode.afterany prior }] }) := by
  simp [submit_no_longer_running_jobs, runQsub, hq]

theorem submit_no_longer_running_jobs_err {c : Cfg} {p : String}
    {prior : Option String} {st : SchedSt}
    (hq : st.qsub_responses st.k = none) :
    submit_no_longer_running_jobs c p prior st =
      (Except.error (),
       { st with k := st.k + 1,
                 events := st.events ++
                   [Event.qsub { script := mark_no_longer_running_script_name c p,
                                 dep := depOption DepMode.afterany prior }] }) := by
  simp [submit_no_longer_running_jobs, runQsub, hq]

/-- Appending different suffixes to the same string yields different
strings. -/
theorem str_app_ne (a : String) {b c : String} (h : b ≠ c) : a ++ b ≠ a ++ c := by
  intro he
  apply h
  have hd := congrArg String.data he
  simp only [String.data_append] at hd
  exact String.ext (List.append_cancel_left hd)

/-- Two list concatenations differ when their left parts disagree at a
common index. -/
theorem append_ne_of_idx {α : Type} {l1 l2 r1 r2 : List α} (n : Nat) (a b : α)
    (h1 : l1[n]? = some a) (h2 : l2[n]? = some b) (hab : a ≠ b) :
    l1 ++ r1 ≠ l2 ++ r2 := by
  intro h
  have hn1 : n < l1.length := by
    by_contra hn
    rw [List.getElem?_eq_none (Nat.le_of_not_lt hn)] at h1
    exact Option.noConfusion h1
  have hn2 : n < l2.length := by
    by_contra hn
    rw [List.getElem?_eq_none (Nat.le_of_not_lt hn)] at h2
    exact Option.noConfusion h2
  have e1 : (l1 ++ r1)[n]? = some a := by rw [List.getElem?_append_left hn1]; exact h1
  have e2 : (l2 ++ r2)[n]? = some b := by rw [List.getElem?_append_left hn2]; exact h2
  rw [h] at e1
  rw [e1] at e2
  exact hab (Option.some.inj e2)

/-- Strings that live under sibling directory names with a character
mismatch are distinct, independently of the shared stem `p`. -/
theorem data_dir_ne {p d1 d2 : String} {r1 r2 : List Char} (n : Nat) (a b : Char)
    (h1 : d1.data[n]? = some a) (h2 : d2.data[n]? = some b) (hab : a ≠ b) :
    p.data ++ (d1.data ++ r1) ≠ p.data ++ (d2.data ++ r2) := by
  intro h
  exact append_ne_of_idx n a b h1 h2 hab (List.append_cancel_left h)

theorem get_ne_process_name (c : Cfg) (p : String) :
    get_data_job_script_name c p ≠ process_data_job_script_name c p :=
  str_app_ne (scripts_start_name c p) (by decide)

theorem get_ne_clean_name (c : Cfg) (p : String) :
    get_data_job_script_name c p ≠ clean_data_script_name c p :=
  str_app_ne (scripts_start_name c p) (by decide)

theorem get_ne_put_name (c : Cfg) (p : String) :
    get_data_job_script_name c p ≠ put_data_script_name c p :=
  str_app_ne (scripts_start_name c p) (by decide)

theorem process_ne_clean_name (c : Cfg) (p : String) :
    process_data_job_script_name c p ≠ clean_data_script_name c p :=
  str_app_ne (scripts_start_name c p) (by decide)

theorem process_ne_put_name (c : Cfg) (p : String) :
    process_data_job_script_name c p ≠ put_data_script_name c p :=
  str_app_ne (scripts_start_name c p) (by decide)

theorem clean_ne_put_name (c : Cfg) (p : String) :
    clean_data_script_name c p ≠ put_data_script_name c p :=
  str_app_ne (scripts_start_name c p) (by decide)

theorem get_ne_check_name (c : Cfg) (p : String) :
    get_data_job_script_name c p ≠ check_data_job_script_name c p := by
  intro h
  have hd := congrArg String.data h
  cases htc : truthyScan c <;>
    simp only [get_data_job_script_name, scripts_start_name, working_directory_name_p,
      check_data_job_script_name, check_data_directory_name_p, htc,
      String.data_append, List.append_assoc] at hd <;>
    exact data_dir_ne 6 'P' 'C' (by decide) (by decide) (by decide) hd

theorem get_ne_mark_name (c : Cfg) (p : String) :
    get_data_job_script_name c p ≠ mark_no_longer_running_script_name c p := by
  intro h
  have hd := congrArg String.data h
  cases htc : truthyScan c <;>
    simp only [get_data_job_script_name, scripts_start_name, working_directory_name_p,
      mark_no_longer_running_script_name, mark_completion_directory_name_p, htc,
      String.data_append, List.append_assoc] at hd <;>
    exact data_dir_ne 6 'P' 'M' (by decide) (by decide) (by decide) hd

theorem process_ne_check_name (c : Cfg) (p : String) :
    process_data_job_script_name c p ≠ check_data_job_script_name c p := by
  intro h
  have hd := congrArg String.data h
  cases htc : truthyScan c <;>
    simp only [process_data_job_script_name, scripts_start_name, working_directory_name_p,
      check_data_job_script_name, check_data_directory_name_p, htc,
      String.data_append, List.append_assoc] at hd <;>
    exact data_dir_ne 6 'P' 'C' (by decide) (by decide) (by decide) hd

theorem process_ne_mark_name (c : Cfg) (p : String) :
    process_data_job_script_name c p ≠ mark_no_longer_running_script_name c p := by
  intro h
  have hd := congrArg String.data h
  cases htc : truthyScan c <;>
    simp only [process_data_job_script_name, scripts_start_name, working_directory_name_p,
      mark_no_longer_running_script_name, mark_completion_directory_name_p, htc,
      String.data_append, List.append_assoc] at hd <;>
    exact data_dir_ne 6 'P' 'M' (by decide) (by decide) (by decide) hd

theorem clean_ne_check_name (c : Cfg) (p : String) :
    clean_data_script_name c p ≠ check_data_job_script_name c p := by
  intro h
  have hd := congrArg String.data h
  cases htc : truthyScan c <;>
    simp only [clean_data_script_name, scripts_start_name, working_directory_name_p,
      check_data_job_script_name, check_data_directory_name_p, htc,
      String.data_append, List.append_assoc] at hd <;>
    exact data_dir_ne 6 'P' 'C' (by decide) (by decide) (by decide) hd

theorem clean_ne_mark_name (c : Cfg) (p : String) :
    clean_data_script_name c p ≠ mark_no_longer_running_script_name c p := by
  intro h
  have hd := congrArg String.data h
  cases htc : truthyScan c <;>
    simp only [clean_data_script_name, scripts_start_name, working_directory_name_p,
      mark_no_longer_running_script_name, mark_completion_directory_name_p, htc,
      String.data_append, List.append_assoc] at hd <;>
    exact data_dir_ne 6 'P' 'M' (by decide) (by decide) (by decide) hd

theorem put_ne_check_name (c : Cfg) (p : String) :
    put_data_script_name c p ≠ check_data_job_script_name c p := by
  intro h
  have hd := congrArg String.data h
  cases htc : truthyScan c <;>
    simp only [put_data_script_name, scripts_start_name, working_directory_name_p,
      check_data_job_script_name, check_data_directory_name_p, htc,
      String.data_append, List.append_assoc] at hd <;>
    exact data_dir_ne 6 'P' 'C' (by decide) (by decide) (by decide) hd

theorem put_ne_mark_name (c : Cfg) (p : String) :
    put_data_script_name c p ≠ mark_no_longer_running_script_name c p := by
  intro h
  have hd := congrArg String.data h
  cases htc : truthyScan c <;>
    simp only [put_data_script_name, scripts_start_name, working_directory_name_p,
      mark_no_longer_running_script_name, mark_completion_directory_name_p, htc,
      String.data_append, List.append_assoc] at hd <;>
    exact data_dir_ne 6 'P' 'M' (by decide) (by decide) (by decide) hd

theorem check_ne_mark_name (c : Cfg) (p : String) :
    check_data_job_script_name c p ≠ mark_no_longer_running_script_name c p := by
  intro h
  have hd := congrArg String.data h
  cases htc : truthyScan c <;>
    simp only [check_data_job_script_name, check_data_directory_name_p,
      mark_no_longer_running_script_name, mark_completion_directory_name_p, htc,
      String.data_append, List.append_assoc] at hd <;>
    exact data_dir_ne 6 'C' 'M' (by decide) (by decide) (by decide) hd

/-- No script is ever planned twice within one run: the seven script names
of one submitter are pairwise distinct. -/
theorem planned_nodup (c : Cfg) (p : String) (stage : ProcessingStage) :
    (plannedScripts c p stage).Nodup := by
  have h1 := get_ne_process_name c p
  have h2 := get_ne_clean_name c p
  have h3 := get_ne_put_name c p
  have h4 := get_ne_check_name c p
  have h5 := get_ne_mark_name c p
  have h6 := process_ne_clean_name c p
  have h7 := process_ne_put_name c p
  have h8 := process_ne_check_name c p
  have h9 := process_ne_mark_name c p
  have h10 := clean_ne_put_name c p
  have h11 := clean_ne_check_name c p
  have h12 := clean_ne_mark_name c p
  have h13 := put_ne_check_name c p
  have h14 := put_ne_mark_name c p
  have h15 := check_ne_mark_name c p
  cases stage <;>
    simp +decide [plannedScripts, plannedStageScripts, List.nodup_cons] <;>
    tauto

theorem fsWriteList_at {name : String} (ws : List String) :
    ∀ (fs : FileSys) (f0 : FileRec), fs name = some f0 →
      fsWriteList fs name ws name =
        some { f0 with content := f0.content ++ concatWrites ws } := by
  induction ws with
  | nil =>
    intro fs f0 h
    simpa [fsWriteList, concatWrites] using h
  | cons w ws ih =>
    intro fs f0 h
    have h' : (fsWrite fs name w) name = some { f0 with content := f0.content ++ w } := by
      simp [fsWrite, h]
    have h2 := ih (fsWrite fs name w) _ h'
    simpa [fsWriteList, concatWrites, String.append_assoc] using h2

theorem fsWriteList_off {name k : String} (hk : k ≠ name) (ws : List String) :
    ∀ fs : FileSys, fsWriteList fs name ws k = fs k := by
  induction ws with
  | nil => intro fs; rfl
  | cons w ws ih =>
    intro fs
    have : fsWriteList fs name (w :: ws) = fsWriteList (fsWrite fs name w) name ws := rfl
    rw [this, ih]
    simp [fsWrite, hk]

/-- A rendered script holds exactly the freshly written content and is
executable, whatever was on disk before. -/
theorem script_render_at (fs : FileSys) (name : String) (ws : List String) :
    script_render fs name ws name = some { content := concatWrites ws, executable := true } := by
  have hopen : (fsOpenW (fsRemove fs name) name) name =
      some { content := "", executable := false } := by
    simp [fsOpenW]
  have hw := fsWriteList_at ws (fsOpenW (fsRemove fs name) name) _ hopen
  simp only [script_render, fsChmodExec, if_pos rfl, hw]
  simp

theorem script_render_off {k name : String} (hk : k ≠ name) (fs : FileSys)
    (ws : List String) : script_render fs name ws k = fs k := by
  simp [script_render, fsChmodExec, fsWriteList_off hk, fsOpenW, fsRemove, hk]

/-- C6: the working-directory name stem (and hence the working, check-data
and mark-completion directory names derived from it) is memoized: within
one submitter instance, a second read performed after a first one returns
the identical string, even when the epoch-seconds clock has advanced from
`t1` to `t2` between the reads. -/
theorem working_directory_names_memoized (c : Cfg) (cache : Option String) (t1 t2 : Nat) :
    (working_directory_name_stem c
        ((working_directory_name_stem c cache t1).2) t2).1 =
      (working_directory_name_stem c cache t1).1 ∧
    (working_directory_name c ((working_directory_name c cache t1).2) t2).1 =
      (working_directory_name c cache t1).1 ∧
    (check_data_directory_name c ((check_data_directory_name c cache t1).2) t2).1 =
      (check_data_directory_name c cache t1).1 ∧
    (mark_completion_directory_name c
        ((mark_completion_directory_name c cache t1).2) t2).1 =
      (mark_completion_directory_name c cache t1).1 := by
  cases cache <;>
    simp [working_directory_name, check_data_directory_name,
      mark_completion_directory_name, working_directory_name_stem]

/-- C8: script rendering is idempotent at the filesystem level. For the
cited rendering operations (`create_get_data_job_script` and
`create_clean_data_script`): the resulting file is independent of the
prior filesystem state (no prior content is retained or appended),
rendering twice leaves exactly the state of rendering once, and the
rendered file exists and is marked executable. -/
theorem script_rendering_idempotent (c : Cfg) (p : String) :
    ((∀ fs fs' : FileSys,
        create_get_data_job_script c p fs (get_data_job_script_name c p) =
          create_get_data_job_script c p fs' (get_data_job_script_name c p)) ∧
     (∀ fs : FileSys,
        create_get_data_job_script c p (create_get_data_job_script c p fs) =
          create_get_data_job_script c p fs) ∧
     (∀ fs : FileSys, ∃ f : FileRec,
        create_get_data_job_script c p fs (get_data_job_script_name c p) = some f ∧
          f.executable = true)) ∧
    ((∀ fs fs' : FileSys,
        create_clean_data_script c p fs (clean_data_script_name c p) =
          create_clean_data_script c p fs' (clean_data_script_name c p)) ∧
     (∀ fs : FileSys,
        create_clean_data_script c p (create_clean_data_script c p fs) =
          create_clean_data_script c p fs) ∧
     (∀ fs : FileSys, ∃ f : FileRec,
        create_clean_data_script c p fs (clean_data_script_name c p) = some f ∧
          f.executable = true)) := by
  refine ⟨⟨?_, ?_, ?_⟩, ⟨?_, ?_, ?_⟩⟩
  · intro fs fs'
    rw [create_get_data_job_script, create_get_data_job_script,
      script_render_at, script_render_at]
  · intro fs
    funext k
    by_cases hk : k = get_data_job_script_name c p
    · subst hk
      simp only [create_get_data_job_script, script_render_at]
    · simp only [create_get_data_job_script, script_render_off hk]
  · intro fs
    rw [create_get_data_job_script, script_render_at]
    exact ⟨_, rfl, rfl⟩
  · intro fs fs'
    rw [create_clean_data_script, create_clean_data_script,
      script_render_at, script_render_at]
  · intro fs
    funext k
    by_cases hk : k = clean_data_script_name c p
    · subst hk
      simp only [create_clean_data_script, script_render_at]
    · simp only [create_clean_data_script, script_render_off hk]
  · intro fs
    rw [create_clean_data_script, script_render_at]
    exact ⟨_, rfl, rfl⟩

/-- C9: the rendered PUT-data script depends conditionally on the scan
field. With a (truthy) scan the script contains the `--scan` line and its
`--resource-suffix` value is the configured output resource suffix;
without a scan no written text starts with `  --scan="` and the
`--resource-suffix` value is `output_resource_name` — which, with no scan
set, coincides with the output resource suffix, so the resource-naming
lines do not otherwise differ between the two cases. -/
theorem put_script_scan_conditional (c : Cfg) (p : String) :
    (∀ s : String, c.scan = some s → s ≠ "" →
      ("  --scan=\"" ++ s ++ "\" \\" ++ "\n") ∈ create_put_data_script_writes c p ∧
      ("  --resource-suffix=\"" ++ c.output_resource_suffix ++ "\" \\" ++ "\n") ∈
        create_put_data_script_writes c p) ∧
    (c.scan = none →
      ((create_put_data_script_writes c p).all
        (fun l => !(strStartsWith "  --scan=\"" l)) = true ∧
       ("  --resource-suffix=\"" ++ output_resource_name c ++ "\" \\" ++ "\n") ∈
         create_put_data_script_writes c p)) ∧
    (c.scan = none → output_resource_name c = c.output_resource_suffix) := by
  refine ⟨?_, ?_, ?_⟩
  · intro s hs hne
    constructor <;> simp [create_put_data_script_writes, truthyScan, hs, hne]
  · intro hs
    constructor
    · simp only [create_put_data_script_writes, truthyScan, hs]
      rfl
    · simp [create_put_data_script_writes, truthyScan, hs]
  · intro hs
    simp [output_resource_name, truthyScan, hs]

theorem put_script_scan_conditional_witness :
    (("  --scan=\"" ++ "S" ++ "\" \\" ++ "\n") ∈ create_put_data_script_writes cfg1 "w" ∧
     ("  --resource-suffix=\"" ++ cfg1.output_resource_suffix ++ "\" \\" ++ "\n") ∈
       create_put_data_script_writes cfg1 "w") ∧
    output_resource_name cfg0 = cfg0.output_resource_suffix :=
  ⟨(put_script_scan_conditional cfg1 "w").1 "S" rfl (by decide),
   (put_script_scan_conditional cfg0 "w").2.2 rfl⟩

/-- C5: whenever a truthy prior job id `pj` is carried into a submission,
each of the five gated stage submissions (when its stage is requested)
records a `qsub` command depending on `pj` in `afterok` mode, while the
unconditional final mark-no-longer-running submission records its
dependency on `pj` in `afterany` mode — for every requested stage and
every prior-job value, regardless of the scheduler's response. -/
theorem dependency_modes (c : Cfg) (p : String) (stage : ProcessingStage)
    (pj : String) (st : SchedSt) (hpj : pj ≠ "") :
    (ProcessingStage.GET_DATA ≤ stage →
      (submit_get_data_jobs c p stage (some pj) st).2.events =
        st.events ++ [Event.qsub { script := get_data_job_script_name c p,
                                   dep := some (DepMode.afterok, pj) }]) ∧
    (ProcessingStage.PROCESS_DATA ≤ stage →
      (submit_process_data_jobs c p stage (some pj) st).2.events =
        st.events ++ [Event.qsub { script := process_data_job_script_name c p,
                                   dep := some (DepMode.afterok, pj) }]) ∧
    (ProcessingStage.CLEAN_DATA ≤ stage →
      (submit_clean_data_jobs c p stage (some pj) st).2.events =
        st.events ++ [Event.qsub { script := clean_data_script_name c p,
                                   dep := some (DepMode.afterok, pj) }]) ∧
    (ProcessingStage.PUT_DATA ≤ stage →
      (submit_put_data_jobs c p stage (some pj) st).2.events =
        st.events ++ [Event.qsub { script := put_data_script_name c p,
                                   dep := some (DepMode.afterok, pj) }]) ∧
    (ProcessingStage.CHECK_DATA ≤ stage →
      (submit_check_jobs c p stage (some pj) st).2.events =
        st.events ++ [Event.qsub { script := check_data_job_script_name c p,
                                   dep := some (DepMode.afterok, pj) }]) ∧
    ((submit_no_longer_running_jobs c p (some pj) st).2.events =
      st.events ++ [Event.qsub { script := mark_no_longer_running_script_name c p,
                                 dep := some (DepMode.afterany, pj) }]) := by
  have hdep : ∀ m : DepMode, depOption m (some pj) = some (m, pj) := by
    intro m; simp [depOption, hpj]
  refine ⟨fun h => ?_, fun h => ?_, fun h => ?_, fun h => ?_, fun h => ?_, ?_⟩
  · cases hq : st.qsub_responses st.k
    · rw [submit_get_data_jobs_err h hq, hdep]
    · rw [submit_get_data_jobs_ok h hq, hdep]
  · cases hq : st.qsub_responses st.k
    · rw [submit_process_data_jobs_err h hq, hdep]
    · rw [submit_process_data_jobs_ok h hq, hdep]
  · cases hq : st.qsub_responses st.k
    · rw [submit_clean_data_jobs_err h hq, hdep]
    · rw [submit_clean_data_jobs_ok h hq, hdep]
  · cases hq : st.qsub_responses st.k
    · rw [submit_put_data_jobs_err h hq, hdep]
    · rw [submit_put_data_jobs_ok h hq, hdep]
  · cases hq : st.qsub_responses st.k
    · rw [submit_check_jobs_err h hq, hdep]
    · rw [submit_check_jobs_ok h hq, hdep]
  · cases hq : st.qsub_responses st.k
    · rw [submit_no_longer_running_jobs_err hq, hdep]
    · rw [submit_no_longer_running_jobs_ok hq, hdep]

theorem dependency_modes_witness :
    (submit_get_data_jobs cfg0 "w" ProcessingStage.CHECK_DATA (some "77")
        (initSt qAll (some "ok") (some "ok"))).2.events =
      [Event.qsub { script := get_data_job_script_name cfg0 "w",
                    dep := some (DepMode.afterok, "77") }] ∧
    (submit_no_longer_running_jobs cfg0 "w" (some "77")
        (initSt qAll (some "ok") (some "ok"))).2.events =
      [Event.qsub { script := mark_no_longer_running_script_name cfg0 "w",
                    dep := some (DepMode.afterany, "77") }] :=
  ⟨(dependency_modes cfg0 "w" ProcessingStage.CHECK_DATA "77"
      (initSt qAll (some "ok") (some "ok")) (by decide)).1 (by decide),
   (dependency_modes cfg0 "w" ProcessingStage.CHECK_DATA "77"
      (initSt qAll (some "ok") (some "ok")) (by decide)).2.2.2.2.2⟩

/-- C10: in the base submitter, every per-stage submission operation that
returns (rather than raising on a scheduler failure) returns either
`(None, None)` — exactly when the requested stage is below the operation's
own stage — or a pair `(j, [j])` whose second component is the singleton
list of the returned job id; the unconditional mark-no-longer-running
submission always returns the `(j, [j])` shape. No other result shape is
possible. -/
theorem submit_result_shapes (c : Cfg) (p : String) (stage : ProcessingStage)
    (prior : Option String) (st : SchedSt) :
    ((submit_get_data_jobs c p stage prior st).1 = Except.error () ∨
     ((submit_get_data_jobs c p stage prior st).1 = Except.ok (none, none) ∧
       ¬ ProcessingStage.GET_DATA ≤ stage) ∨
     (∃ j, (submit_get_data_jobs c p stage prior st).1 = Except.ok (some j, some [j]) ∧
       ProcessingStage.GET_DATA ≤ stage)) ∧
    ((submit_process_data_jobs c p stage prior st).1 = Except.error () ∨
     ((submit_process_data_jobs c p stage prior st).1 = Except.ok (none, none) ∧
       ¬ ProcessingStage.PROCESS_DATA ≤ stage) ∨
     (∃ j, (submit_process_data_jobs c p stage prior st).1 = Except.ok (some j, some [j]) ∧
       ProcessingStage.PROCESS_DATA ≤ stage)) ∧
    ((submit_clean_data_jobs c p stage prior st).1 = Except.error () ∨
     ((submit_clean_data_jobs c p stage prior st).1 = Except.ok (none, none) ∧
       ¬ ProcessingStage.CLEAN_DATA ≤ stage) ∨
     (∃ j, (submit_clean_data_jobs c p stage prior st).1 = Except.ok (some j, some [j]) ∧
       ProcessingStage.CLEAN_DATA ≤ stage)) ∧
    ((submit_put_data_jobs c p stage prior st).1 = Except.error () ∨
     ((submit_put_data_jobs c p stage prior st).1 = Except.ok (none, none) ∧
       ¬ ProcessingStage.PUT_DATA ≤ stage) ∨
     (∃ j, (submit_put_data_jobs c p stage prior st).1 = Except.ok (some j, some [j]) ∧
       ProcessingStage.PUT_DATA ≤ stage)) ∧
    ((submit_check_jobs c p stage prior st).1 = Except.error () ∨
     ((submit_check_jobs c p stage prior st).1 = Except.ok (none, none) ∧
       ¬ ProcessingStage.CHECK_DATA ≤ stage) ∨
     (∃ j, (submit_check_jobs c p stage prior st).1 = Except.ok (some j, some [j]) ∧
       ProcessingStage.CHECK_DATA ≤ stage)) ∧
    ((submit_no_longer_running_jobs c p prior st).1 = Except.error () ∨
     (∃ j, (submit_no_longer_running_jobs c p prior st).1 =
        Except.ok (some j, some [j]))) := by
  refine ⟨?_, ?_, ?_, ?_, ?_, ?_⟩
  · by_cases h : ProcessingStage.GET_DATA ≤ stage
    · cases hq : st.qsub_responses st.k
      · rw [submit_get_data_jobs_err h hq]; exact Or.inl rfl
      · rw [submit_get_data_jobs_ok h hq]; exact Or.inr (Or.inr ⟨_, rfl, h⟩)
    · rw [submit_get_data_jobs_skip h]; exact Or.inr (Or.inl ⟨rfl, h⟩)
  · by_cases h : ProcessingStage.PROCESS_DATA ≤ stage
    · cases hq : st.qsub_responses st.k
      · rw [submit_process_data_jobs_err h hq]; exact Or.inl rfl
      · rw [submit_process_data_jobs_ok h hq]; exact Or.inr (Or.inr ⟨_, rfl, h⟩)
    · rw [submit_process_data_jobs_skip h]; exact Or.inr (Or.inl ⟨rfl, h⟩)
  · by_cases h : ProcessingStage.CLEAN_DATA ≤ stage
    · cases hq : st.qsub_responses st.k
      · rw [submit_clean_data_jobs_err h hq]; exact Or.inl rfl
      · rw [submit_clean_data_jobs_ok h hq]; exact Or.inr (Or.inr ⟨_, rfl, h⟩)
    · rw [submit_clean_data_jobs_skip h]; exact Or.inr (Or.inl ⟨rfl, h⟩)
  · by_cases h : ProcessingStage.PUT_DATA ≤ stage
    · cases hq : st.qsub_responses st.k
      · rw [submit_put_data_jobs_err h hq]; exact Or.inl rfl
      · rw [submit_put_data_jobs_ok h hq]; exact Or.inr (Or.inr ⟨_, rfl, h⟩)
    · rw [submit_put_data_jobs_skip h]; exact Or.inr (Or.inl ⟨rfl, h⟩)
  · by_cases h : ProcessingStage.CHECK_DATA ≤ stage
    · cases hq : st.qsub_responses st.k
      · rw [submit_check_jobs_err h hq]; exact Or.inl rfl
      · rw [submit_check_jobs_ok h hq]; exact Or.inr (Or.inr ⟨_, rfl, h⟩)
    · rw [submit_check_jobs_skip h]; exact Or.inr (Or.inl ⟨rfl, h⟩)
  · cases hq : st.qsub_responses st.k
    · rw [submit_no_longer_running_jobs_err hq]; exact Or.inl rfl
    · rw [submit_no_longer_running_jobs_ok hq]; exact Or.inr ⟨_, rfl⟩

theorem submit_get_data_jobs_events_shape (c : Cfg) (p : String)
    (stage : ProcessingStage) (prior : Option String) (st : SchedSt) :
    ∃ t, (submit_get_data_jobs c p stage prior st).2.events = st.events ++ t ∧
      ∀ e ∈ t, e.isQsub = true := by
  by_cases h : ProcessingStage.GET_DATA ≤ stage
  · cases hq : st.qsub_responses st.k
    · rw [submit_get_data_jobs_err h hq]
      exact ⟨_, rfl, by simp [Event.isQsub]⟩
    · rw [submit_get_data_jobs_ok h hq]
      exact ⟨_, rfl, by simp [Event.isQsub]⟩
  · rw [submit_get_data_jobs_skip h]
    exact ⟨[], by simp, by simp⟩

theorem submit_process_data_jobs_events_shape (c : Cfg) (p : String)
    (stage : ProcessingStage) (prior : Option String) (st : SchedSt) :
    ∃ t, (submit_process_data_jobs c p stage prior st).2.events = st.events ++ t ∧
      ∀ e ∈ t, e.isQsub = true := by
  by_cases h : ProcessingStage.PROCESS_DATA ≤ stage
  · cases hq : st.qsub_responses st.k
    · rw [submit_process_data_jobs_err h hq]
      exact ⟨_, rfl, by simp [Event.isQsub]⟩
    · rw [submit_process_data_jobs_ok h hq]
      exact ⟨_, rfl, by simp [Event.isQsub]⟩
  · rw [submit_process_data_jobs_skip h]
    exact ⟨[], by simp, by simp⟩

theorem submit_clean_data_jobs_events_shape (c : Cfg) (p : String)
    (stage : ProcessingStage) (prior : Option String) (st : SchedSt) :
    ∃ t, (submit_clean_data_jobs c p stage prior st).2.events = st.events ++ t ∧
      ∀ e ∈ t, e.isQsub = true := by
  by_cases h : ProcessingStage.CLEAN_DATA ≤ stage
  · cases hq : st.qsub_responses st.k
    · rw [submit_clean_data_jobs_err h hq]
      exact ⟨_, rfl, by simp [Event.isQsub]⟩
    · rw [submit_clean_data_jobs_ok h hq]
      exact ⟨_, rfl, by simp [Event.isQsub]⟩
  · rw [submit_clean_data_jobs_skip h]
    exact ⟨[], by simp, by simp⟩

theorem submit_put_data_jobs_events_shape (c : Cfg) (p : String)
    (stage : ProcessingStage) (prior : Option String) (st : SchedSt) :
    ∃ t, (submit_put_data_jobs c p stage prior st).2.events = st.events ++ t ∧
      ∀ e ∈ t, e.isQsub = true := by
  by_cases h : ProcessingStage.PUT_DATA ≤ stage
  · cases hq : st.qsub_responses st.k
    · rw [submit_put_data_jobs_err h hq]
      exact ⟨_, rfl, by simp [Event.isQsub]⟩
    · rw [submit_put_data_jobs_ok h hq]
      exact ⟨_, rfl, by simp [Event.isQsub]⟩
  · rw [submit_put_data_jobs_skip h]
    exact ⟨[], by simp, by simp⟩

theorem submit_check_jobs_events_shape (c : Cfg) (p : String)
    (stage : ProcessingStage) (prior : Option String) (st : SchedSt) :
    ∃ t, (submit_check_jobs c p stage prior st).2.events = st.events ++ t ∧
      ∀ e ∈ t, e.isQsub = true := by
  by_cases h : ProcessingStage.CHECK_DATA ≤ stage
  · cases hq : st.qsub_responses st.k
    · rw [submit_check_jobs_err h hq]
      exact ⟨_, rfl, by simp [Event.isQsub]⟩
    · rw [submit_check_jobs_ok h hq]
      exact ⟨_, rfl, by simp [Event.isQsub]⟩
  · rw [submit_check_jobs_skip h]
    exact ⟨[], by simp, by simp⟩

theorem submit_no_longer_running_jobs_events_shape (c : Cfg) (p : String)
    (prior : Option String) (st : SchedSt) :
    ∃ t, (submit_no_longer_running_jobs c p prior st).2.events = st.events ++ t ∧
      ∀ e ∈ t, e.isQsub = true := by
  cases hq : st.qsub_responses st.k
  · rw [submit_no_longer_running_jobs_err hq]
    exact ⟨_, rfl, by simp [Event.isQsub]⟩
  · rw [submit_no_longer_running_jobs_ok hq]
    exact ⟨_, rfl, by simp [Event.isQsub]⟩

theorem mark_running_status_events_of_eq {stage : ProcessingStage} {st : SchedSt}
    {r : Except Unit Unit} {st' : SchedSt}
    (h : ProcessingStage.PREPARE_SCRIPTS < stage)
    (hE : mark_running_status stage st = (r, st')) :
    st'.events = st.events ++ [Event.markQueued] := by
  cases hmr : st.mark_response
  · rw [mark_running_status_err h hmr] at hE
    injection hE with h1 h2
    rw [h2.symm]
  · rw [mark_running_status_ok h hmr] at hE
    injection hE with h1 h2
    rw [h2.symm]

theorem submit_get_events_of_eq {c : Cfg} {p : String} {stage : ProcessingStage}
    {prior : Option String} {st : SchedSt}
    {r : Except Unit (Option String × Option (List String))} {st' : SchedSt}
    (hE : submit_get_data_jobs c p stage prior st = (r, st')) :
    ∃ t, st'.events = st.events ++ t := by
  obtain ⟨t, ht, _⟩ := submit_get_data_jobs_events_shape c p stage prior st
  rw [hE] at ht
  exact ⟨t, ht⟩

theorem submit_process_events_of_eq {c : Cfg} {p : String} {stage : ProcessingStage}
    {prior : Option String} {st : SchedSt}
    {r : Except Unit (Option String × Option (List String))} {st' : SchedSt}
    (hE : submit_process_data_jobs c p stage prior st = (r, st')) :
    ∃ t, st'.events = st.events ++ t := by
  obtain ⟨t, ht, _⟩ := submit_process_data_jobs_events_shape c p stage prior st
  rw [hE] at ht
  exact ⟨t, ht⟩

theorem submit_clean_events_of_eq {c : Cfg} {p : String} {stage : ProcessingStage}
    {prior : Option String} {st : SchedSt}
    {r : Except Unit (Option String × Option (List String))} {st' : SchedSt}
    (hE : submit_clean_data_jobs c p stage prior st = (r, st')) :
    ∃ t, st'.events = st.events ++ t := by
  obtain ⟨t, ht, _⟩ := submit_clean_data_jobs_events_shape c p stage prior st
  rw [hE] at ht
  exact ⟨t, ht⟩

theorem submit_put_events_of_eq {c : Cfg} {p : String} {stage : ProcessingStage}
    {prior : Option String} {st : SchedSt}
    {r : Except Unit (Option String × Option (List String))} {st' : SchedSt}
    (hE : submit_put_data_jobs c p stage prior st = (r, st')) :
    ∃ t, st'.events = st.events ++ t := by
  obtain ⟨t, ht, _⟩ := submit_put_data_jobs_events_shape c p stage prior st
  rw [hE] at ht
  exact ⟨t, ht⟩

theorem submit_check_events_of_eq {c : Cfg} {p : String} {stage : ProcessingStage}
    {prior : Option String} {st : SchedSt}
    {r : Except Unit (Option String × Option (List String))} {st' : SchedSt}
    (hE : submit_check_jobs c p stage prior st = (r, st')) :
    ∃ t, st'.events = st.events ++ t := by
  obtain ⟨t, ht, _⟩ := submit_check_jobs_events_shape c p stage prior st
  rw [hE] at ht
  exact ⟨t, ht⟩

theorem submit_mark_events_of_eq {c : Cfg} {p : String}
    {prior : Option String} {st : SchedSt}
    {r : Except Unit (Option String × Option (List String))} {st' : SchedSt}
    (hE : submit_no_longer_running_jobs c p prior st = (r, st')) :
    ∃ t, st'.events = st.events ++ t := by
  obtain ⟨t, ht, _⟩ := submit_no_longer_running_jobs_events_shape c p prior st
  rw [hE] at ht
  exact ⟨t, ht⟩

/-- Every run that marks the running status does so right after rendering
the scripts: its trace starts with the create-scripts action and the
queued-marking call, before anything else. -/
theorem do_job_submissions_events_shape (c : Cfg) (p : String)
    (stage : ProcessingStage) (st : SchedSt)
    (h : ProcessingStage.PREPARE_SCRIPTS < stage) :
    ∃ rest, (do_job_submissions c p stage st).2.events =
      st.events ++ [Event.createScripts, Event.markQueued] ++ rest := by
  simp only [do_job_submissions, create_scripts_eq]
  split
  · next e stM heq =>
    have hme := mark_running_status_events_of_eq h heq
    dsimp only at hme
    exact ⟨[], by simp [hme]⟩
  · next u stM heq =>
    have hme := mark_running_status_events_of_eq h heq
    dsimp only at hme
    split
    · next e stG heqG =>
      obtain ⟨t1, ht1⟩ := submit_get_events_of_eq heqG
      exact ⟨t1, by simp [ht1, hme]⟩
    · next lg ag stG heqG =>
      obtain ⟨t1, ht1⟩ := submit_get_events_of_eq heqG
      split
      · next e stP heqP =>
        obtain ⟨t2, ht2⟩ := submit_process_events_of_eq heqP
        exact ⟨t1 ++ t2, by simp [ht2, ht1, hme]⟩
      · next lp ap stP heqP =>
        obtain ⟨t2, ht2⟩ := submit_process_events_of_eq heqP
        split
        · next e stC heqC =>
          obtain ⟨t3, ht3⟩ := submit_clean_events_of_eq heqC
          exact ⟨t1 ++ t2 ++ t3, by simp [ht3, ht2, ht1, hme]⟩
        · next lc ac stC heqC =>
          obtain ⟨t3, ht3⟩ := submit_clean_events_of_eq heqC
          split
          · next e stU heqU =>
            obtain ⟨t4, ht4⟩ := submit_put_events_of_eq heqU
            exact ⟨t1 ++ t2 ++ t3 ++ t4, by simp [ht4, ht3, ht2, ht1, hme]⟩
          · next lu au stU heqU =>
            obtain ⟨t4, ht4⟩ := submit_put_events_of_eq heqU
            split
            · next e stK heqK =>
              obtain ⟨t5, ht5⟩ := submit_check_events_of_eq heqK
              exact ⟨t1 ++ t2 ++ t3 ++ t4 ++ t5,
                by simp [ht5, ht4, ht3, ht2, ht1, hme]⟩
            · next lk ak stK heqK =>
              obtain ⟨t5, ht5⟩ := submit_check_events_of_eq heqK
              split
              · next e stN heqN =>
                obtain ⟨t6, ht6⟩ := submit_mark_events_of_eq heqN
                exact ⟨t1 ++ t2 ++ t3 ++ t4 ++ t5 ++ t6,
                  by simp [ht6, ht5, ht4, ht3, ht2, ht1, hme]⟩
              · next ln an stN heqN =>
                obtain ⟨t6, ht6⟩ := submit_mark_events_of_eq heqN
                exact ⟨t1 ++ t2 ++ t3 ++ t4 ++ t5 ++ t6,
                  by simp [ht6, ht5, ht4, ht3, ht2, ht1, hme]⟩

/-- The trace of a full `submit_jobs` run (with the delete call succeeding)
begins with the optional delete-resource action, then the create-scripts
action, then the queued-marking call — whenever the requested stage is
above PREPARE_SCRIPTS. -/
theorem submit_jobs_events_shape (c : Cfg) (stage : ProcessingStage)
    (cache : Option String) (now : Nat) (q : Nat → Option String)
    (m : Option String) (dl : String)
    (h : ProcessingStage.PREPARE_SCRIPTS < stage) :
    ∃ rest,
      (submit_jobs c stage cache now (initSt q m (some dl))).2.events =
        [Event.createScripts, Event.markQueued] ++ rest ∨
      (submit_jobs c stage cache now (initSt q m (some dl))).2.events =
        Event.deleteResource :: Event.createScripts :: Event.markQueued :: rest := by
  simp only [submit_jobs, initSt]
  by_cases hcl : c.clean_output_resource_first
  · simp only [if_pos hcl]
    obtain ⟨rest, hrest⟩ := do_job_submissions_events_shape c
      (working_directory_name_stem c cache now).1 stage
      { qsub_responses := q, mark_response := m, delete_response := some dl,
        k := 0, events := [] ++ [Event.deleteResource] } h
    refine ⟨rest, Or.inr ?_⟩
    rw [hrest]
    simp
  · simp only [if_neg hcl]
    obtain ⟨rest, hrest⟩ := do_job_submissions_events_shape c
      (working_directory_name_stem c cache now).1 stage
      { qsub_responses := q, mark_response := m, delete_response := some dl,
        k := 0, events := [] } h
    refine ⟨rest, Or.inl ?_⟩
    rw [hrest]
    simp

/-- C7 (amended): for every requested processing stage strictly above
PREPARE_SCRIPTS, `submit_jobs` performs the queued-marking call
(`XNAT_MARK_RUNNING_STATUS --queued`) before any job is submitted to the
scheduler: the marking action occurs in the trace and every action before
it is not a scheduler submission. At PREPARE_SCRIPTS itself no marking
call is made (see the counterexample). -/
theorem mark_queued_before_any_submission (c : Cfg) (stage : ProcessingStage)
    (cache : Option String) (now : Nat) (q : Nat → Option String)
    (m : Option String) (dl : String)
    (h : ProcessingStage.PREPARE_SCRIPTS < stage) :
    Event.markQueued ∈ (submit_jobs c stage cache now (initSt q m (some dl))).2.events ∧
    ∀ e ∈ (submit_jobs c stage cache now (initSt q m (some dl))).2.events.takeWhile
        (fun e => !(e == Event.markQueued)),
      e.isQsub = false := by
  obtain ⟨rest, hev | hev⟩ := submit_jobs_events_shape c stage cache now q m dl h <;>
    rw [hev] <;>
    constructor <;>
    simp +decide [List.takeWhile_cons, Event.isQsub]

theorem mark_queued_before_any_submission_witness :
    Event.markQueued ∈
      (submit_jobs cfg0 ProcessingStage.CHECK_DATA (some "w") 0
        (initSt qAll (some "ok") (some "ok"))).2.events ∧
    ∀ e ∈ (submit_jobs cfg0 ProcessingStage.CHECK_DATA (some "w") 0
        (initSt qAll (some "ok") (some "ok"))).2.events.takeWhile
          (fun e => !(e == Event.markQueued)),
      e.isQsub = false :=
  mark_queued_before_any_submission cfg0 ProcessingStage.CHECK_DATA (some "w") 0
    qAll (some "ok") "ok" (by decide)

/-- C7 (counterexample): at requested stage PREPARE_SCRIPTS a full
`submit_jobs` run never performs the queued-marking call — the trace
contains no marking action at all (yet the run completes and the
mark-no-longer-running job is still submitted), refuting the claim that
the running status is marked queued for every requested stage. -/
theorem mark_queued_skipped_at_prepare_scripts :
    Event.markQueued ∉
      (submit_jobs cfg0 ProcessingStage.PREPARE_SCRIPTS (some "w") 0
        (initSt qAll (some "ok") (some "ok"))).2.events ∧
    (submit_jobs cfg0 ProcessingStage.PREPARE_SCRIPTS (some "w") 0
        (initSt qAll (some "ok") (some "ok"))).1 =
      Except.ok [("Complete Running Status", some ["J0"])] := by
  constructor
  · decide
  · rfl

set_option maxHeartbeats 4000000 in
/-- On the first failing scheduler submission the run returns an error and
the trace holds exactly the submissions up to and including the failed
one. -/
theorem do_job_submissions_fail (c : Cfg) (p : String) (stage : ProcessingStage)
    (q : Nat → Option String) (mo dl : String) (e0 : List Event) (k : Nat)
    (hpre : ∀ j, j < k → (q j).isSome) (hfail : q k = none)
    (hk : k < (plannedScripts c p stage).length) :
    (do_job_submissions c p stage
        { qsub_responses := q, mark_response := some mo, delete_response := some dl,
          k := 0, events := e0 }).1 = Except.error () ∧
    qsubScripts ((do_job_submissions c p stage
        { qsub_responses := q, mark_response := some mo, delete_response := some dl,
          k := 0, events := e0 }).2.events) =
      qsubScripts e0 ++ (plannedScripts c p stage).take (k + 1) := by
  cases stage with
  | PREPARE_SCRIPTS =>
    replace hk : k < 1 := by simp +decide [plannedScripts, plannedStageScripts] at hk; omega
    interval_cases k
    ·
      constructor <;>
        simp +decide [do_job_submissions, create_scripts_eq, mark_running_status,
        submit_get_data_jobs, submit_process_data_jobs, submit_clean_data_jobs,
        submit_put_data_jobs, submit_check_jobs, submit_no_longer_running_jobs,
        runQsub, hfail, optStrTruthy, optListTruthy, depOption,
        qsubScripts, qsubCmds, plannedScripts, plannedStageScripts]
  | GET_DATA =>
    replace hk : k < 2 := by simp +decide [plannedScripts, plannedStageScripts] at hk; omega
    interval_cases k
    ·
      constructor <;>
        simp +decide [do_job_submissions, create_scripts_eq, mark_running_status,
        submit_get_data_jobs, submit_process_data_jobs, submit_clean_data_jobs,
        submit_put_data_jobs, submit_check_jobs, submit_no_longer_running_jobs,
        runQsub, hfail, optStrTruthy, optListTruthy, depOption,
        qsubScripts, qsubCmds, plannedScripts, plannedStageScripts]
    ·
      obtain ⟨o0, ho0⟩ := Option.isSome_iff_exists.mp (hpre 0 (by omega))
      constructor <;>
        simp +decide [do_job_submissions, create_scripts_eq, mark_running_status,
        submit_get_data_jobs, submit_process_data_jobs, submit_clean_data_jobs,
        submit_put_data_jobs, submit_check_jobs, submit_no_longer_running_jobs,
        runQsub, hfail, optStrTruthy, optListTruthy, depOption,
        qsubScripts, qsubCmds, plannedScripts, plannedStageScripts, ho0]
  | PROCESS_DATA =>
    replace hk : k < 3 := by simp +decide [plannedScripts, plannedStageScripts] at hk; omega
    interval_cases k
    ·
      constructor <;>
        simp +decide [do_job_submissions, create_scripts_eq, mark_running_status,
        submit_get_data_jobs, submit_process_data_jobs, submit_clean_data_jobs,
        submit_put_data_jobs, submit_check_jobs, submit_no_longer_running_jobs,
        runQsub, hfail, optStrTruthy, optListTruthy, depOption,
        qsubScripts, qsubCmds, plannedScripts, plannedStageScripts]
    ·
      obtain ⟨o0, ho0⟩ := Option.isSome_iff_exists.mp (hpre 0 (by omega))
      constructor <;>
        simp +decide [do_job_submissions, create_scripts_eq, mark_running_status,
        submit_get_data_jobs, submit_process_data_jobs, submit_clean_data_jobs,
        submit_put_data_jobs, submit_check_jobs, submit_no_longer_running_jobs,
        runQsub, hfail, optStrTruthy, optListTruthy, depOption,
        qsubScripts, qsubCmds, plannedScripts, plannedStageScripts, ho0]
    ·
      obtain ⟨o0, ho0⟩ := Option.isSome_iff_exists.mp (hpre 0 (by omega))
      obtain ⟨o1, ho1⟩ := Option.isSome_iff_exists.mp (hpre 1 (by omega))
      constructor <;>
        simp +decide [do_job_submissions, create_scripts_eq, mark_running_status,
        submit_get_data_jobs, submit_process_data_jobs, submit_clean_data_jobs,
        submit_put_data_jobs, submit_check_jobs, submit_no_longer_running_jobs,
        runQsub, hfail, optStrTruthy, optListTruthy, depOption,
        qsubScripts, qsubCmds, plannedScripts, plannedStageScripts, ho0, ho1]
  | CLEAN_DATA =>
    replace hk : k < 4 := by simp +decide [plannedScripts, plannedStageScripts] at hk; omega
    interval_cases k
    ·
      constructor <;>
        simp +decide [do_job_submissions, create_scripts_eq, mark_running_status,
        submit_get_data_jobs, submit_process_data_jobs, submit_clean_data_jobs,
        submit_put_data_jobs, submit_check_jobs, submit_no_longer_running_jobs,
        runQsub, hfail, optStrTruthy, optListTruthy, depOption,
        qsubScripts, qsubCmds, plannedScripts, plannedStageScripts]
    ·
      obtain ⟨o0, ho0⟩ := Option.isSome_iff_exists.mp (hpre 0 (by omega))
      constructor <;>
        simp +decide [do_job_submissions, create_scripts_eq, mark_running_status,
        submit_get_data_jobs, submit_process_data_jobs, submit_clean_data_jobs,
        submit_put_data_jobs, submit_check_jobs, submit_no_longer_running_jobs,
        runQsub, hfail, optStrTruthy, optListTruthy, depOption,
        qsubScripts, qsubCmds, plannedScripts, plannedStageScripts, ho0]
    ·
      obtain ⟨o0, ho0⟩ := Option.isSome_iff_exists.mp (hpre 0 (by omega))
      obtain ⟨o1, ho1⟩ := Option.isSome_iff_exists.mp (hpre 1 (by omega))
      constructor <;>
        simp +decide [do_job_submissions, create_scripts_eq, mark_running_status,
        submit_get_data_jobs, submit_process_data_jobs, submit_clean_data_jobs,
        submit_put_data_jobs, submit_check_jobs, submit_no_longer_running_jobs,
        runQsub, hfail, optStrTruthy, optListTruthy, depOption,
        qsubScripts, qsubCmds, plannedScripts, plannedStageScripts, ho0, ho1]
    ·
      obtain ⟨o0, ho0⟩ := Option.isSome_iff_exists.mp (hpre 0 (by omega))
      obtain ⟨o1, ho1⟩ := Option.isSome_iff_exists.mp (hpre 1 (by omega))
      obtain ⟨o2, ho2⟩ := Option.isSome_iff_exists.mp (hpre 2 (by omega))
      constructor <;>
        simp +decide [do_job_submissions, create_scripts_eq, mark_running_status,
        submit_get_data_jobs, submit_process_data_jobs, submit_clean_data_jobs,
        submit_put_data_jobs, submit_check_jobs, submit_no_longer_running_jobs,
        runQsub, hfail, optStrTruthy, optListTruthy, depOption,
        qsubScripts, qsubCmds, plannedScripts, plannedStageScripts, ho0, ho1, ho2]
  | PUT_DATA =>
    replace hk : k < 5 := by simp +decide [plannedScripts, plannedStageScripts] at hk; omega
    interval_cases k
    ·
      constructor <;>
        simp +decide [do_job_submissions, create_scripts_eq, mark_running_status,
        submit_get_data_jobs, submit_process_data_jobs, submit_clean_data_jobs,
        submit_put_data_jobs, submit_check_jobs, submit_no_longer_running_jobs,
        runQsub, hfail, optStrTruthy, optListTruthy, depOption,
        qsubScripts, qsubCmds, plannedScripts, plannedStageScripts]
    ·
      obtain ⟨o0, ho0⟩ := Option.isSome_iff_exists.mp (hpre 0 (by omega))
      constructor <;>
        simp +decide [do_job_submissions, create_scripts_eq, mark_running_status,
        submit_get_data_jobs, submit_process_data_jobs, submit_clean_data_jobs,
        submit_put_data_jobs, submit_check_jobs, submit_no_longer_running_jobs,
        runQsub, hfail, optStrTruthy, optListTruthy, depOption,
        qsubScripts, qsubCmds, plannedScripts, plannedStageScripts, ho0]
    ·
      obtain ⟨o0, ho0⟩ := Option.isSome_iff_exists.mp (hpre 0 (by omega))
      obtain ⟨o1, ho1⟩ := Option.isSome_iff_exists.mp (hpre 1 (by omega))
      constructor <;>
        simp +decide [do_job_submissions, create_scripts_eq, mark_running_status,
        submit_get_data_jobs, submit_process_data_jobs, submit_clean_data_jobs,
        submit_put_data_jobs, submit_check_jobs, submit_no_longer_running_jobs,
        runQsub, hfail, optStrTruthy, optListTruthy, depOption,
        qsubScripts, qsubCmds, plannedScripts, plannedStageScripts, ho0, ho1]
    ·
      obtain ⟨o0, ho0⟩ := Option.isSome_iff_exists.mp (hpre 0 (by omega))
      obtain ⟨o1, ho1⟩ := Option.isSome_iff_exists.mp (hpre 1 (by omega))
      obtain ⟨o2, ho2⟩ := Option.isSome_iff_exists.mp (hpre 2 (by omega))
      constructor <;>
        simp +decide [do_job_submissions, create_scripts_eq, mark_running_status,
        submit_get_data_jobs, submit_process_data_jobs, submit_clean_data_jobs,
        submit_put_data_jobs, submit_check_jobs, submit_no_longer_running_jobs,
        runQsub, hfail, optStrTruthy, optListTruthy, depOption,
        qsubScripts, qsubCmds, plannedScripts, plannedStageScripts, ho0, ho1, ho2]
    ·
      obtain ⟨o0, ho0⟩ := Option.isSome_iff_exists.mp (hpre 0 (by omega))
      obtain ⟨o1, ho1⟩ := Option.isSome_iff_exists.mp (hpre 1 (by omega))
      obtain ⟨o2, ho2⟩ := Option.isSome_iff_exists.mp (hpre 2 (by omega))
      obtain ⟨o3, ho3⟩ := Option.isSome_iff_exists.mp (hpre 3 (by omega))
      constructor <;>
        simp +decide [do_job_submissions, create_scripts_eq, mark_running_status,
        submit_get_data_jobs, submit_process_data_jobs, submit_clean_data_jobs,
        submit_put_data_jobs, submit_check_jobs, submit_no_longer_running_jobs,
        runQsub, hfail, optStrTruthy, optListTruthy, depOption,
        qsubScripts, qsubCmds, plannedScripts, plannedStageScripts, ho0, ho1, ho2, ho3]
  | CHECK_DATA =>
    replace hk : k < 6 := by simp +decide [plannedScripts, plannedStageScripts] at hk; omega
    interval_cases k
    ·
      constructor <;>
        simp +decide [do_job_submissions, create_scripts_eq, mark_running_status,
        submit_get_data_jobs, submit_process_data_jobs, submit_clean_data_jobs,
        submit_put_data_jobs, submit_check_jobs, submit_no_longer_running_jobs,
        runQsub, hfail, optStrTruthy, optListTruthy, depOption,
        qsubScripts, qsubCmds, plannedScripts, plannedStageScripts]
    ·
      obtain ⟨o0, ho0⟩ := Option.isSome_iff_exists.mp (hpre 0 (by omega))
      constructor <;>
        simp +decide [do_job_submissions, create_scripts_eq, mark_running_status,
        submit_get_data_jobs, submit_process_data_jobs, submit_clean_data_jobs,
        submit_put_data_jobs, submit_check_jobs, submit_no_longer_running_jobs,
        runQsub, hfail, optStrTruthy, optListTruthy, depOption,
        qsubScripts, qsubCmds, plannedScripts, plannedStageScripts, ho0]
    ·
      obtain ⟨o0, ho0⟩ := Option.isSome_iff_exists.mp (hpre 0 (by omega))
      obtain ⟨o1, ho1⟩ := Option.isSome_iff_exists.mp (hpre 1 (by omega))
      constructor <;>
        simp +decide [do_job_submissions, create_scripts_eq, mark_running_status,
        submit_get_data_jobs, submit_process_data_jobs, submit_clean_data_jobs,
        submit_put_data_jobs, submit_check_jobs, submit_no_longer_running_jobs,
        runQsub, hfail, optStrTruthy, optListTruthy, depOption,
        qsubScripts, qsubCmds, plannedScripts, plannedStageScripts, ho0, ho1]
    ·
      obtain ⟨o0, ho0⟩ := Option.isSome_iff_exists.mp (hpre 0 (by omega))
      obtain ⟨o1, ho1⟩ := Option.isSome_iff_exists.mp (hpre 1 (by omega))
      obtain ⟨o2, ho2⟩ := Option.isSome_iff_exists.mp (hpre 2 (by omega))
      constructor <;>
        simp +decide [do_job_submissions, create_scripts_eq, mark_running_status,
        submit_get_data_jobs, submit_process_data_jobs, submit_clean_data_jobs,
        submit_put_data_jobs, submit_check_jobs, submit_no_longer_running_jobs,
        runQsub, hfail, optStrTruthy, optListTruthy, depOption,
        qsubScripts, qsubCmds, plannedScripts, plannedStageScripts, ho0, ho1, ho2]
    ·
      obtain ⟨o0, ho0⟩ := Option.isSome_iff_exists.mp (hpre 0 (by omega))
      obtain ⟨o1, ho1⟩ := Option.isSome_iff_exists.mp (hpre 1 (by omega))
      obtain ⟨o2, ho2⟩ := Option.isSome_iff_exists.mp (hpre 2 (by omega))
      obtain ⟨o3, ho3⟩ := Option.isSome_iff_exists.mp (hpre 3 (by omega))
      constructor <;>
        simp +decide [do_job_submissions, create_scripts_eq, mark_running_status,
        submit_get_data_jobs, submit_process_data_jobs, submit_clean_data_jobs,
        submit_put_data_jobs, submit_check_jobs, submit_no_longer_running_jobs,
        runQsub, hfail, optStrTruthy, optListTruthy, depOption,
        qsubScripts, qsubCmds, plannedScripts, plannedStageScripts, ho0, ho1, ho2, ho3]
    ·
      obtain ⟨o0, ho0⟩ := Option.isSome_iff_exists.mp (hpre 0 (by omega))
      obtain ⟨o1, ho1⟩ := Option.isSome_iff_exists.mp (hpre 1 (by omega))
      obtain ⟨o2, ho2⟩ := Option.isSome_iff_exists.mp (hpre 2 (by omega))
      obtain ⟨o3, ho3⟩ := Option.isSome_iff_exists.mp (hpre 3 (by omega))
      obtain ⟨o4, ho4⟩ := Option.isSome_iff_exists.mp (hpre 4 (by omega))
      constructor <;>
        simp +decide [do_job_submissions, create_scripts_eq, mark_running_status,
        submit_get_data_jobs, submit_process_data_jobs, submit_clean_data_jobs,
        submit_put_data_jobs, submit_check_jobs, submit_no_longer_running_jobs,
        runQsub, hfail, optStrTruthy, optListTruthy, depOption,
        qsubScripts, qsubCmds, plannedScripts, plannedStageScripts, ho0, ho1, ho2, ho3, ho4]

theorem count_take_of_nodup {α : Type} [DecidableEq α] {l : List α} (h : l.Nodup)
    {k : Nat} (hk : k < l.length) (d : α) :
    (l.take (k + 1)).count (l.getD k d) = 1 := by
  have hget : l.getD k d = l[k] := List.getD_eq_getElem l d hk
  have hkt : k < (l.take (k + 1)).length := by
    simp [List.length_take]
    omega
  have hmem : l[k] ∈ l.take (k + 1) := by
    have hel : (l.take (k + 1))[k] = l[k] := List.getElem_take ..
    rw [hel.symm]
    exact List.getElem_mem hkt
  have hnd : (l.take (k + 1)).Nodup := h.sublist (List.take_sublist _ _)
  rw [hget]
  exact List.count_eq_one_of_mem hnd hmem

/-- A full `submit_jobs` run on a scheduler that fails at the `k`-th
submission: the run errors and exactly the first `k + 1` planned scripts
were submitted. -/
theorem submit_jobs_fail (c : Cfg) (stage : ProcessingStage)
    (cache : Option String) (now : Nat) (q : Nat → Option String) (mo dl : String)
    (k : Nat)
    (hpre : ∀ j, j < k → (q j).isSome) (hfail : q k = none)
    (hk : k < (plannedScripts c (working_directory_name_stem c cache now).1 stage).length) :
    (submit_jobs c stage cache now (initSt q (some mo) (some dl))).1 = Except.error () ∧
    qsubScripts ((submit_jobs c stage cache now (initSt q (some mo) (some dl))).2.events) =
      (plannedScripts c (working_directory_name_stem c cache now).1 stage).take (k + 1) := by
  by_cases hcl : c.clean_output_resource_first
  · have h := do_job_submissions_fail c (working_directory_name_stem c cache now).1
      stage q mo dl [Event.deleteResource] k hpre hfail hk
    have hw : submit_jobs c stage cache now (initSt q (some mo) (some dl)) =
        do_job_submissions c (working_directory_name_stem c cache now).1 stage
          { qsub_responses := q, mark_response := some mo, delete_response := some dl,
            k := 0, events := [Event.deleteResource] } := by
      simp [submit_jobs, initSt, hcl]
    rw [hw]
    refine ⟨h.1, ?_⟩
    rw [h.2]
    simp [qsubScripts, qsubCmds]
  · have h := do_job_submissions_fail c (working_directory_name_stem c cache now).1
      stage q mo dl [] k hpre hfail hk
    have hw : submit_jobs c stage cache now (initSt q (some mo) (some dl)) =
        do_job_submissions c (working_directory_name_stem c cache now).1 stage
          { qsub_responses := q, mark_response := some mo, delete_response := some dl,
            k := 0, events := [] } := by
      simp [submit_jobs, initSt, hcl]
    rw [hw]
    refine ⟨h.1, ?_⟩
    rw [h.2]
    simp [qsubScripts, qsubCmds]

/-- C3: if the `k`-th scheduler submission of a run fails (non-zero exit of
the external qsub call) while all earlier ones succeeded, the run aborts
immediately: `submit_jobs` returns no manifest (it propagates the error),
the submitted scripts are exactly the first `k + 1` planned ones — so no
later stage submission is ever attempted — and the failed script was
submitted exactly once, i.e. never retried. -/
theorem submission_failure_aborts (c : Cfg) (stage : ProcessingStage)
    (cache : Option String) (now : Nat) (q : Nat → Option String) (mo dl : String)
    (k : Nat)
    (hpre : ∀ j, j < k → (q j).isSome) (hfail : q k = none)
    (hk : k < (plannedScripts c (working_directory_name_stem c cache now).1 stage).length) :
    (submit_jobs c stage cache now (initSt q (some mo) (some dl))).1 = Except.error () ∧
    qsubScripts ((submit_jobs c stage cache now (initSt q (some mo) (some dl))).2.events) =
      (plannedScripts c (working_directory_name_stem c cache now).1 stage).take (k + 1) ∧
    (qsubScripts
        ((submit_jobs c stage cache now (initSt q (some mo) (some dl))).2.events)).count
      ((plannedScripts c (working_directory_name_stem c cache now).1 stage).getD k "") =
        1 := by
  obtain ⟨h1, h2⟩ := submit_jobs_fail c stage cache now q mo dl k hpre hfail hk
  refine ⟨h1, h2, ?_⟩
  rw [h2]
  exact count_take_of_nodup
    (planned_nodup c (working_directory_name_stem c cache now).1 stage) hk ""

theorem submission_failure_aborts_witness :
    (submit_jobs cfg0 ProcessingStage.CHECK_DATA (some "w") 0
        (initSt (qFailFrom 2) (some "ok") (some "ok"))).1 = Except.error () ∧
    qsubScripts ((submit_jobs cfg0 ProcessingStage.CHECK_DATA (some "w") 0
        (initSt (qFailFrom 2) (some "ok") (some "ok"))).2.events) =
      (plannedScripts cfg0
        (working_directory_name_stem cfg0 (some "w") 0).1
        ProcessingStage.CHECK_DATA).take 3 ∧
    (qsubScripts ((submit_jobs cfg0 ProcessingStage.CHECK_DATA (some "w") 0
        (initSt (qFailFrom 2) (some "ok") (some "ok"))).2.events)).count
      ((plannedScripts cfg0
        (working_directory_name_stem cfg0 (some "w") 0).1
        ProcessingStage.CHECK_DATA).getD 2 "") = 1 :=
  submission_failure_aborts cfg0 ProcessingStage.CHECK_DATA (some "w") 0
    (qFailFrom 2) "ok" "ok" 2 (by decide) (by decide)
    (by simp +decide [plannedScripts, plannedStageScripts])

set_option maxHeartbeats 1000000 in
/-- C4 (amended): when the PROCESS_DATA submission fails with a non-zero
exit while the GET_DATA submission succeeded, the run aborts at once:
exactly the get-data and process-data scripts were submitted, so the
CLEAN_DATA, PUT_DATA and CHECK_DATA jobs are never attempted — and,
contrary to the original claim, the mark-no-longer-running job is not
submitted either: the run aborts before reaching it (the spec itself flags
this as its section 9 open question). -/
theorem process_failure_aborts_without_mark (c : Cfg) (stage : ProcessingStage)
    (cache : Option String) (now : Nat) (q : Nat → Option String) (mo dl : String)
    (hstage : ProcessingStage.PROCESS_DATA ≤ stage)
    (h0 : (q 0).isSome) (h1 : q 1 = none) :
    (submit_jobs c stage cache now (initSt q (some mo) (some dl))).1 = Except.error () ∧
    qsubScripts ((submit_jobs c stage cache now (initSt q (some mo) (some dl))).2.events) =
      [get_data_job_script_name c (working_directory_name_stem c cache now).1,
       process_data_job_script_name c (working_directory_name_stem c cache now).1] ∧
    clean_data_script_name c (working_directory_name_stem c cache now).1 ∉
      qsubScripts ((submit_jobs c stage cache now (initSt q (some mo) (some dl))).2.events) ∧
    put_data_script_name c (working_directory_name_stem c cache now).1 ∉
      qsubScripts ((submit_jobs c stage cache now (initSt q (some mo) (some dl))).2.events) ∧
    check_data_job_script_name c (working_directory_name_stem c cache now).1 ∉
      qsubScripts ((submit_jobs c stage cache now (initSt q (some mo) (some dl))).2.events) ∧
    mark_no_longer_running_script_name c (working_directory_name_stem c cache now).1 ∉
      qsubScripts ((submit_jobs c stage cache now (initSt q (some mo) (some dl))).2.events) := by
  have hpre : ∀ j, j < 1 → (q j).isSome := by
    intro j hj
    have hj0 : j = 0 := by omega
    rw [hj0]
    exact h0
  have hk : 1 < (plannedScripts c (working_directory_name_stem c cache now).1 stage).length := by
    cases stage <;> first
      | exact absurd hstage (by decide)
      | simp +decide [plannedScripts, plannedStageScripts]
  obtain ⟨hres, htr⟩ := submit_jobs_fail c stage cache now q mo dl 1 hpre h1 hk
  have htake :
      (plannedScripts c (working_directory_name_stem c cache now).1 stage).take 2 =
        [get_data_job_script_name c (working_directory_name_stem c cache now).1,
         process_data_job_script_name c (working_directory_name_stem c cache now).1] := by
    cases stage <;> first
      | exact absurd hstage (by decide)
      | simp +decide [plannedScripts, plannedStageScripts]
  rw [htake] at htr
  refine ⟨hres, htr, ?_, ?_, ?_, ?_⟩ <;>
    rw [htr] <;>
    simp only [List.mem_cons, List.not_mem_nil, or_false, not_or]
  · exact ⟨fun h => get_ne_clean_name c _ h.symm,
           fun h => process_ne_clean_name c _ h.symm⟩
  · exact ⟨fun h => get_ne_put_name c _ h.symm,
           fun h => process_ne_put_name c _ h.symm⟩
  · exact ⟨fun h => get_ne_check_name c _ h.symm,
           fun h => process_ne_check_name c _ h.symm⟩
  · exact ⟨fun h => get_ne_mark_name c _ h.symm,
           fun h => process_ne_mark_name c _ h.symm⟩

theorem process_failure_aborts_without_mark_witness :
    (submit_jobs cfg0 ProcessingStage.CHECK_DATA (some "w") 0
        (initSt (qFailFrom 1) (some "ok") (some "ok"))).1 = Except.error () ∧
    qsubScripts ((submit_jobs cfg0 ProcessingStage.CHECK_DATA (some "w") 0
        (initSt (qFailFrom 1) (some "ok") (some "ok"))).2.events) =
      [get_data_job_script_name cfg0 (working_directory_name_stem cfg0 (some "w") 0).1,
       process_data_job_script_name cfg0
         (working_directory_name_stem cfg0 (some "w") 0).1] ∧
    clean_data_script_name cfg0 (working_directory_name_stem cfg0 (some "w") 0).1 ∉
      qsubScripts ((submit_jobs cfg0 ProcessingStage.CHECK_DATA (some "w") 0
        (initSt (qFailFrom 1) (some "ok") (some "ok"))).2.events) ∧
    put_data_script_name cfg0 (working_directory_name_stem cfg0 (some "w") 0).1 ∉
      qsubScripts ((submit_jobs cfg0 ProcessingStage.CHECK_DATA (some "w") 0
        (initSt (qFailFrom 1) (some "ok") (some "ok"))).2.events) ∧
    check_data_job_script_name cfg0 (working_directory_name_stem cfg0 (some "w") 0).1 ∉
      qsubScripts ((submit_jobs cfg0 ProcessingStage.CHECK_DATA (some "w") 0
        (initSt (qFailFrom 1) (some "ok") (some "ok"))).2.events) ∧
    mark_no_longer_running_script_name cfg0
        (working_directory_name_stem cfg0 (some "w") 0).1 ∉
      qsubScripts ((submit_jobs cfg0 ProcessingStage.CHECK_DATA (some "w") 0
        (initSt (qFailFrom 1) (some "ok") (some "ok"))).2.events) :=
  process_failure_aborts_without_mark cfg0 ProcessingStage.CHECK_DATA (some "w") 0
    (qFailFrom 1) "ok" "ok" (by decide) (by decide) (by decide)

/-- C4 (counterexample): a concrete full-pipeline run whose PROCESS_DATA
submission fails with a non-zero exit. The run aborts and the
mark-no-longer-running script is never submitted to the scheduler,
refuting the claim that the mark-complete job is still submitted to clear
the running status. -/
theorem process_failure_mark_not_submitted :
    (submit_jobs cfg0 ProcessingStage.CHECK_DATA (some "w") 0
        (initSt (qFailFrom 1) (some "ok") (some "ok"))).1 = Except.error () ∧
    mark_no_longer_running_script_name cfg0 "w" ∉
      qsubScripts ((submit_jobs cfg0 ProcessingStage.CHECK_DATA (some "w") 0
        (initSt (qFailFrom 1) (some "ok") (some "ok"))).2.events) := by
  constructor
  · rfl
  · decide

/-- C1 (code evaluation at the failing input): with requested stage
PROCESS_DATA and an always-successful scheduler, the returned manifest
contains an entry labelled CLEAN_DATA (with a `None` job list), even
though PROCESS_DATA < CLEAN_DATA — the guard at line 775 of
`do_job_submissions` tests `all_process_data_job_nos` instead of
`all_clean_data_job_nos`. -/
theorem clean_data_entry_despite_process_stage :
    (do_job_submissions cfg0 "w" ProcessingStage.PROCESS_DATA
        (initSt qAll (some "ok") (some "ok"))).1 =
      Except.ok [(ProcessingStage.GET_DATA.name, some ["J0"]),
                 (ProcessingStage.PROCESS_DATA.name, some ["J1"]),
                 (ProcessingStage.CLEAN_DATA.name, none),
                 ("Complete Running Status", some ["J2"])] ∧
    ProcessingStage.PROCESS_DATA < ProcessingStage.CLEAN_DATA := by
  constructor
  · rfl
  · decide

set_option maxHeartbeats 2000000 in
/-- C2: in a run whose scheduler submissions all succeed (returning
non-empty job ids), the submitted commands are exactly the gated stage
scripts chained in order — the first submitted stage carries no dependency
at all, each later one declares as its dependency the job id returned by
the immediately preceding submission — followed by the unconditional
mark-no-longer-running submission, whose dependency is the job id of the
last actually submitted stage (or none when no stage was submitted),
skipped stages passing the prior job id through unchanged. -/
theorem dependency_chaining (c : Cfg) (p : String) (stage : ProcessingStage)
    (q : Nat → Option String) (mo dl : String)
    (hq : ∀ n, ∃ out, q n = some out ∧ remove_ending_new_lines out ≠ "") :
    qsubCmds ((do_job_submissions c p stage
        (initSt q (some mo) (some dl))).2.events) =
      chainedCmds (plannedStageScripts c p stage) none (jobIdAt q) 0 ++
        [{ script := mark_no_longer_running_script_name c p,
           dep := (lastJobId (jobIdAt q)
             (plannedStageScripts c p stage).length).map
               (fun j => (DepMode.afterany, j)) }] := by
  obtain ⟨o0, ho0, hn0⟩ := hq 0
  obtain ⟨o1, ho1, hn1⟩ := hq 1
  obtain ⟨o2, ho2, hn2⟩ := hq 2
  obtain ⟨o3, ho3, hn3⟩ := hq 3
  obtain ⟨o4, ho4, hn4⟩ := hq 4
  obtain ⟨o5, ho5, hn5⟩ := hq 5
  have hb0 := eq_false hn0
  have hb1 := eq_false hn1
  have hb2 := eq_false hn2
  have hb3 := eq_false hn3
  have hb4 := eq_false hn4
  have hb5 := eq_false hn5
  cases stage <;>
    simp +decide [do_job_submissions, create_scripts_eq, mark_running_status,
      submit_get_data_jobs, submit_process_data_jobs, submit_clean_data_jobs,
      submit_put_data_jobs, submit_check_jobs, submit_no_longer_running_jobs,
      runQsub, initSt, ho0, ho1, ho2, ho3, ho4, ho5, hb0, hb1, hb2, hb3, hb4, hb5,
      optStrTruthy, optListTruthy, depOption, qsubCmds, chainedCmds,
      plannedStageScripts, jobIdAt, lastJobId]

theorem dependency_chaining_witness :
    qsubCmds ((do_job_submissions cfg0 "w" ProcessingStage.CLEAN_DATA
        (initSt (fun _ => some "7\n") (some "ok") (some "ok"))).2.events) =
      chainedCmds (plannedStageScripts cfg0 "w" ProcessingStage.CLEAN_DATA) none
          (jobIdAt (fun _ => some "7\n")) 0 ++
        [{ script := mark_no_longer_running_script_name cfg0 "w",
           dep := (lastJobId (jobIdAt (fun _ => some "7\n"))
             (plannedStageScripts cfg0 "w" ProcessingStage.CLEAN_DATA).length).map
               (fun j => (DepMode.afterany, j)) }] :=
  dependency_chaining cfg0 "w" ProcessingStage.CLEAN_DATA (fun _ => some "7\n")
    "ok" "ok" (fun _ => ⟨"7\n", rfl, by decide⟩)
